import Mathlib

/-!
# Inventory Transaction Engine — verification of the spec's claims

Shallow embedding of the stock-mutating core of the inventory/POS backend:
the sale controller (`createSale`, `cancelSale`), the purchase controller
(`createPurchase`, `updatePurchase`), and the stock-adjustment controller
(`createStockAdjustment`), together with the mongoose schema validation of
the models they persist to.

Modelling conventions:
* JavaScript numbers are modelled as exact rationals (`Rat`).  All values
  the claims exercise are small integers, where JS floating point agrees
  with exact arithmetic.
* A MongoDB collection is a Lean list; a document id is a `Nat`.
* A mongoose session transaction is modelled by accumulating the writes the
  controller issues with `{ session }` in a buffer and applying the buffer
  at the `commitTransaction` point.  On any thrown error the controller
  calls `abortTransaction`, so the error branches return the unchanged
  committed database.
* Crucially, the controllers call `Product.findById(...)` WITHOUT the
  session, so every read inside a transaction sees the committed data, not
  the transaction's own buffered writes.  The embedding therefore reads
  from the committed `DB` value and never from the buffer.
* `mongoose` validation runs on `create` and on `save`; update paths not
  declared in a schema are silently discarded (strict mode, the default).
* `ApiError(status, message)` is embedded as a status code plus the
  source's message string with interpolated runtime values elided.
-/

namespace Inventory

/-- Decidable equality of controller results. -/
instance {ε α : Type} [DecidableEq ε] [DecidableEq α] : DecidableEq (Except ε α)
  | .error e, .error f =>
    if h : e = f then isTrue (congrArg Except.error h)
    else isFalse (fun hh => h (Except.error.inj hh))
  | .error _, .ok _ => isFalse (fun hh => Except.noConfusion hh)
  | .ok _, .error _ => isFalse (fun hh => Except.noConfusion hh)
  | .ok a, .ok b =>
    if h : a = b then isTrue (congrArg Except.ok h)
    else isFalse (fun hh => h (Except.ok.inj hh))

/-- The `ApiError` the controllers throw (`src/utils/apiError.js`): an HTTP
status code and a message.  Interpolated runtime fragments of the messages
are elided. -/
structure ApiError where
  statusCode : Nat
  message : String
deriving DecidableEq, Repr

/-- A product document, restricted to the fields the stock-mutating core
reads or writes: `quantity` (the quantity-on-hand) and `isActive`
(`src/unnamed/part_005`, `productSchema`).  The schema declares NO
`stockQuantity` and NO `stockHistory` path — this matters for the
stock-adjustment controller. -/
structure Product where
  id : Nat
  isActive : Bool
  quantity : Rat
deriving DecidableEq, Repr

/-- A supplier document.  Modelled from the spec: `supplier.model.js` is not
among the provided sources; §6 of the spec says the core reads Supplier
documents by identity together with an `isActive` flag, which is all
`createPurchase` uses. -/
structure Supplier where
  id : Nat
  isActive : Bool
deriving DecidableEq, Repr

/-- A validated line item as the controllers push it
(`{ product, quantity, unitPrice, total }`). -/
structure OrderItem where
  product : Nat
  quantity : Rat
  unitPrice : Rat
  total : Rat
deriving DecidableEq, Repr

/-- A sale document (`sale.model.js`, absent from the provided sources;
shape modelled from the spec §3: same shape as the purchase order minus
`shippingCost`/`status`, plus `changeAmount`). -/
structure SaleDoc where
  id : Nat
  invoiceNumber : Nat
  customerName : String
  items : List OrderItem
  subTotal : Rat
  taxRate : Rat
  taxAmount : Rat
  discountAmount : Rat
  totalAmount : Rat
  paymentStatus : String
  paymentMethod : String
  paidAmount : Rat
  changeAmount : Rat
  dueAmount : Rat
deriving DecidableEq, Repr

/-- A purchase document (`src/unnamed/part_006`, `purchaseSchema`). -/
structure PurchaseDoc where
  id : Nat
  invoiceNumber : Nat
  supplier : Nat
  items : List OrderItem
  subTotal : Rat
  taxRate : Rat
  taxAmount : Rat
  discountAmount : Rat
  shippingCost : Rat
  totalAmount : Rat
  paymentStatus : String
  paymentMethod : String
  paidAmount : Rat
  dueAmount : Rat
  status : String
  actualDeliveryDate : Option Nat
deriving DecidableEq, Repr

/-- A stock-adjustment document (`src/src/models/stockAdjustment.model.js`),
restricted to its scalar required fields; its `items` sub-array is never
populated by the controller. -/
structure AdjustmentDoc where
  reference : String
  type : String
  reason : String
deriving DecidableEq, Repr

/-- An entry of the Stock Ledger the specification describes (§2, §3: a
signed quantity delta plus a reference to the causing order/adjustment).
`models/index.js` enumerates every model of the repository and declares no
such model, and no controller writes one; the collection exists in the
state only so that statements about ledger entries can be made. -/
structure LedgerEntry where
  product : Nat
  delta : Rat
  reference : Nat
deriving DecidableEq, Repr

/-- The committed database state: one list per collection. -/
structure DB where
  products : List Product
  suppliers : List Supplier
  sales : List SaleDoc
  purchases : List PurchaseDoc
  adjustments : List AdjustmentDoc
  ledger : List LedgerEntry
deriving DecidableEq, Repr

/-! ## JavaScript value helpers

`undefined` is modelled as `none`.  `x || d` treats `undefined`, `0` and
`""` as falsy. -/

/-- JS `x || d` for an optional numeric field. -/
def jsOrNum (x : Option Rat) (d : Rat) : Rat :=
  match x with
  | none => d
  | some v => if v = 0 then d else v

/-- JS `x || d` for an optional string field. -/
def jsOrStr (x : Option String) (d : String) : String :=
  match x with
  | none => d
  | some s => if s = "" then d else s

/-- JS `!x` for an optional numeric field: `undefined` and `0` are falsy. -/
def jsFalsyNum (x : Option Rat) : Bool :=
  match x with
  | none => true
  | some v => v = 0

/-- JS `!x` for an optional string field: `undefined` and `""` are falsy. -/
def jsFalsyStr (x : Option String) : Bool :=
  match x with
  | none => true
  | some s => s = ""

/-- JS `!x` for an optional document id (an ObjectId string): falsy iff
`undefined`. -/
def jsFalsyId (x : Option Nat) : Bool := x.isNone

/-- JS `x < q` where `x` may be `undefined`: `undefined < q` is a `NaN`
comparison and evaluates to `false`. -/
def jsUndefLt (x : Option Rat) (q : Rat) : Bool :=
  match x with
  | none => false
  | some v => v < q

/-! ## Collection primitives -/

/-- `Product.findById` (reads the committed collection; the controllers
never attach the session to their reads). -/
def findProduct (db : DB) (pid : Nat) : Option Product :=
  db.products.find? (fun p => p.id = pid)

/-- Overwrite the `quantity` of the product with the given id (the effect
of `product.save()`, which writes the absolute value the controller
computed). -/
def setQty (ps : List Product) (pid : Nat) (q : Rat) : List Product :=
  ps.map (fun p => if p.id = pid then { p with quantity := q } else p)

/-- Apply the session's buffered product writes in chronological order at
`commitTransaction`.  A later write to the same document overwrites an
earlier one, exactly as repeated `save()` calls inside one transaction
do. -/
def applyBuf (ps : List Product) : List (Nat × Rat) → List Product
  | [] => ps
  | (pid, q) :: rest => applyBuf (setQty ps pid q) rest

def findSale (db : DB) (sid : Nat) : Option SaleDoc :=
  db.sales.find? (fun s => s.id = sid)

def setSale (sales : List SaleDoc) (sid : Nat) (s : SaleDoc) : List SaleDoc :=
  sales.map (fun x => if x.id = sid then s else x)

def findSupplier (db : DB) (sid : Nat) : Option Supplier :=
  db.suppliers.find? (fun s => s.id = sid)

def findPurchase (db : DB) (pid : Nat) : Option PurchaseDoc :=
  db.purchases.find? (fun p => p.id = pid)

def setPurchase (pus : List PurchaseDoc) (pid : Nat) (pu : PurchaseDoc) : List PurchaseDoc :=
  pus.map (fun x => if x.id = pid then pu else x)

/-! ## Schema enumerations -/

/-- `paymentStatus` enum (purchase schema; the sale schema's enum per spec
§3 is the same). -/
def paymentStatusEnum : List String := ["pending", "partial", "paid", "cancelled"]

/-- `paymentMethod` enum (purchase schema). -/
def paymentMethodEnum : List String :=
  ["cash", "credit card", "bank transfer", "check", "online", "other"]

/-- Purchase lifecycle `status` enum. -/
def statusEnum : List String := ["pending", "processing", "delivered", "cancelled"]

/-- `type` enum of the stock-adjustment schema
(`src/src/models/stockAdjustment.model.js`). -/
def adjTypeEnum : List String :=
  ["addition", "subtraction", "damage", "loss", "return", "correction", "other"]

/-! ## Request shapes (the `req.body` fields the controllers read) -/

/-- A raw line item of a request body; every field may be absent. -/
structure RawItem where
  product : Option Nat
  quantity : Option Rat
  unitPrice : Option Rat
deriving DecidableEq, Repr

/-- Body of `POST /sales` as `createSale` destructures it. -/
structure SaleReq where
  customerName : Option String
  items : List RawItem
  taxRate : Option Rat
  discountAmount : Option Rat
  paidAmount : Option Rat
  paymentStatus : Option String
  paymentMethod : Option String
deriving DecidableEq, Repr

/-! ## Sale creation (`createSale`, `src/unnamed/part_001` lines 86–221) -/

/-- `generateInvoiceNumber`: read the numerically-last existing invoice of
the collection (sorted by creation time) and add one, defaulting to 1.  The
date prefix is elided; only the sequence number is kept. -/
def generateInvoiceNumber (sales : List SaleDoc) : Nat :=
  match sales.getLast? with
  | none => 1
  | some s => s.invoiceNumber + 1

/-- The per-item loop of `createSale`: validate each raw item, accumulate
`subTotal` and the validated items, and buffer the `product.save({session})`
write `quantity := read − requested`.  Reads go to the committed `db`
(`Product.findById` is not given the session).  The `newQty < 0` guard is
the mongoose `min: 0` validator on `quantity` that `save` runs; it is
unreachable here because the explicit stock check precedes it. -/
def saleLoop (db : DB) : List RawItem → Except ApiError (Rat × List OrderItem × List (Nat × Rat))
  | [] => .ok (0, [], [])
  | item :: rest =>
    match item.product with
    | none => .error ⟨400, "Each item must have product, quantity, and unit price"⟩
    | some pid =>
      if jsFalsyNum item.quantity || jsFalsyNum item.unitPrice then
        .error ⟨400, "Each item must have product, quantity, and unit price"⟩
      else
        let q := item.quantity.getD 0
        let up := item.unitPrice.getD 0
        match findProduct db pid with
        | none => .error ⟨404, "Product not found"⟩
        | some p =>
          if !p.isActive then .error ⟨404, "Product not found"⟩
          else if p.quantity < q then .error ⟨400, "Not enough stock"⟩
          else if p.quantity - q < 0 then .error ⟨500, "Product quantity below minimum"⟩
          else
            match saleLoop db rest with
            | .error e => .error e
            | .ok (sub, its, buf) =>
              .ok (q * up + sub, ⟨pid, q, up, q * up⟩ :: its, (pid, p.quantity - q) :: buf)

/-- The derived-field computation of `createSale` (lines 146–196): tax,
total, due/change and the payment-status classification, then the document
handed to `Sale.create`. -/
def mkSaleDoc (db : DB) (req : SaleReq) (sub : Rat) (items : List OrderItem) : SaleDoc :=
  let finalTaxRate := jsOrNum req.taxRate 0
  let taxAmount := sub * finalTaxRate / 100
  let finalDiscountAmount := jsOrNum req.discountAmount 0
  let totalAmount := sub + taxAmount - finalDiscountAmount
  let finalPaidAmount := jsOrNum req.paidAmount 0
  let dueAmount := if finalPaidAmount ≥ totalAmount then 0 else totalAmount - finalPaidAmount
  let changeAmount := if finalPaidAmount ≥ totalAmount then finalPaidAmount - totalAmount else 0
  let st0 := jsOrStr req.paymentStatus "pending"
  let finalPaymentStatus :=
    if dueAmount ≤ 0 then "paid" else if finalPaidAmount > 0 then "partial" else st0
  { id := db.sales.length
    invoiceNumber := generateInvoiceNumber db.sales
    customerName := req.customerName.getD ""
    items := items
    subTotal := sub
    taxRate := finalTaxRate
    taxAmount := taxAmount
    discountAmount := finalDiscountAmount
    totalAmount := totalAmount
    paymentStatus := finalPaymentStatus
    paymentMethod := jsOrStr req.paymentMethod "cash"
    paidAmount := finalPaidAmount
    changeAmount := changeAmount
    dueAmount := dueAmount }

/-- Validation `Sale.create` runs.  Modelled from the spec: `sale.model.js`
is not among the provided sources; §3 says the sale order has the same
shape and constraints as the purchase order (whose schema requires
`quantity ≥ 1`, non-negative money fields, and the payment enums), minus
`shippingCost`, plus `changeAmount`. -/
def validateSaleDoc (s : SaleDoc) : Bool :=
  s.items.all (fun it =>
    decide (1 ≤ it.quantity) && decide (0 ≤ it.unitPrice) && decide (0 ≤ it.total)) &&
  decide (0 ≤ s.subTotal) && decide (0 ≤ s.taxRate) && decide (0 ≤ s.taxAmount) &&
  decide (0 ≤ s.discountAmount) && decide (0 ≤ s.totalAmount) &&
  decide (0 ≤ s.paidAmount) && decide (0 ≤ s.changeAmount) && decide (0 ≤ s.dueAmount) &&
  paymentStatusEnum.contains s.paymentStatus &&
  paymentMethodEnum.contains s.paymentMethod

/-- `createSale`: request validation, then one MongoDB transaction running
the item loop (stock writes buffered in the session), the money
computation, and `Sale.create`; `commitTransaction` publishes the buffered
writes and the new document.  Every thrown error aborts the transaction, so
each error branch returns the committed database unchanged. -/
def createSale (db : DB) (req : SaleReq) : DB × Except ApiError SaleDoc :=
  if req.items.isEmpty then
    (db, .error ⟨400, "At least one item is required"⟩)
  else if jsFalsyStr req.customerName then
    (db, .error ⟨400, "Customer name is required"⟩)
  else
    match saleLoop db req.items with
    | .error e => (db, .error e)
    | .ok (sub, items, buf) =>
      let doc := mkSaleDoc db req sub items
      if validateSaleDoc doc then
        ({ db with products := applyBuf db.products buf, sales := db.sales ++ [doc] }, .ok doc)
      else
        (db, .error ⟨500, "Sale validation failed"⟩)

/-! ## Sale cancellation (`cancelSale`, `src/unnamed/part_001` lines 304–356) -/

/-- The restore loop of `cancelSale`: for each line item, read the product
from the committed collection (again without the session); a missing
product is silently skipped; an existing one gets `quantity := read +
item.quantity` buffered.  The `< 0` guard is the `min: 0` validator `save`
runs. -/
def cancelLoop (db : DB) : List OrderItem → Except ApiError (List (Nat × Rat))
  | [] => .ok []
  | it :: rest =>
    match findProduct db it.product with
    | none => cancelLoop db rest
    | some p =>
      if p.quantity + it.quantity < 0 then .error ⟨500, "Product quantity below minimum"⟩
      else
        match cancelLoop db rest with
        | .error e => .error e
        | .ok buf => .ok ((it.product, p.quantity + it.quantity) :: buf)

/-- `cancelSale`: 404 when the sale is missing, 400 when already cancelled;
otherwise one transaction restoring the product quantities and setting
`paymentStatus := "cancelled"`. -/
def cancelSale (db : DB) (sid : Nat) : DB × Except ApiError SaleDoc :=
  match findSale db sid with
  | none => (db, .error ⟨404, "Sale not found"⟩)
  | some sale =>
    if sale.paymentStatus = "cancelled" then
      (db, .error ⟨400, "Sale is already cancelled"⟩)
    else
      match cancelLoop db sale.items with
      | .error e => (db, .error e)
      | .ok buf =>
        let sale2 := { sale with paymentStatus := "cancelled" }
        ({ db with
            products := applyBuf db.products buf
            sales := setSale db.sales sid sale2 }, .ok sale2)

/-! ## Purchase creation (`createPurchase`,
`src/src/controller/purchase.controller.js` lines 92–185) -/

/-- Body of `POST /purchases` as `createPurchase` destructures it. -/
structure PurchaseReq where
  supplier : Option Nat
  items : List RawItem
  taxRate : Option Rat
  discountAmount : Option Rat
  shippingCost : Option Rat
  paidAmount : Option Rat
  paymentStatus : Option String
  paymentMethod : Option String
deriving DecidableEq, Repr

/-- The per-item validation loop of `createPurchase` (and of the
items-recalculation branch of `updatePurchase`): product must exist and be
active; no stock check and no stock mutation happen at purchase
creation. -/
def purchaseLoop (db : DB) : List RawItem → Except ApiError (Rat × List OrderItem)
  | [] => .ok (0, [])
  | item :: rest =>
    match item.product with
    | none => .error ⟨400, "Each item must have product, quantity, and unit price"⟩
    | some pid =>
      if jsFalsyNum item.quantity || jsFalsyNum item.unitPrice then
        .error ⟨400, "Each item must have product, quantity, and unit price"⟩
      else
        let q := item.quantity.getD 0
        let up := item.unitPrice.getD 0
        match findProduct db pid with
        | none => .error ⟨404, "Product not found"⟩
        | some p =>
          if !p.isActive then .error ⟨404, "Product not found"⟩
          else
            match purchaseLoop db rest with
            | .error e => .error e
            | .ok (sub, its) => .ok (q * up + sub, ⟨pid, q, up, q * up⟩ :: its)

/-- `generateInvoiceNumber` of the purchase controller (same read-latest
and increment pattern, over the purchases collection). -/
def generateInvoiceNumber' (pus : List PurchaseDoc) : Nat :=
  match pus.getLast? with
  | none => 1
  | some p => p.invoiceNumber + 1

/-- The derived-field computation of `createPurchase` (lines 144–176):
`dueAmount = totalAmount - paidAmount` with no branching, and
`paymentStatus` taken from the request (defaulting to `"pending"`), not
derived from the amounts. -/
def mkPurchaseDoc (db : DB) (req : PurchaseReq) (sub : Rat) (items : List OrderItem) :
    PurchaseDoc :=
  let taxAmount := sub * jsOrNum req.taxRate 0 / 100
  let totalAmount := sub + taxAmount + jsOrNum req.shippingCost 0 - jsOrNum req.discountAmount 0
  { id := db.purchases.length
    invoiceNumber := generateInvoiceNumber' db.purchases
    supplier := req.supplier.getD 0
    items := items
    subTotal := sub
    taxRate := jsOrNum req.taxRate 0
    taxAmount := taxAmount
    discountAmount := jsOrNum req.discountAmount 0
    shippingCost := jsOrNum req.shippingCost 0
    totalAmount := totalAmount
    paymentStatus := jsOrStr req.paymentStatus "pending"
    paymentMethod := jsOrStr req.paymentMethod "cash"
    paidAmount := jsOrNum req.paidAmount 0
    dueAmount := totalAmount - jsOrNum req.paidAmount 0
    status := "pending"
    actualDeliveryDate := none }

/-- Validation `Purchase.create` runs, from `purchaseSchema`
(`src/unnamed/part_006`): `min: 1` on item quantities, `min: 0` on item
prices/totals and on every monetary field, and the three enums. -/
def validatePurchaseDoc (p : PurchaseDoc) : Bool :=
  p.items.all (fun it =>
    decide (1 ≤ it.quantity) && decide (0 ≤ it.unitPrice) && decide (0 ≤ it.total)) &&
  decide (0 ≤ p.subTotal) && decide (0 ≤ p.taxRate) && decide (0 ≤ p.taxAmount) &&
  decide (0 ≤ p.discountAmount) && decide (0 ≤ p.shippingCost) && decide (0 ≤ p.totalAmount) &&
  decide (0 ≤ p.paidAmount) && decide (0 ≤ p.dueAmount) &&
  paymentStatusEnum.contains p.paymentStatus &&
  paymentMethodEnum.contains p.paymentMethod &&
  statusEnum.contains p.status

/-- `createPurchase`: validate supplier and items, compute the derived
fields, `Purchase.create`.  No transaction and no stock mutation — stock
moves only at delivery. -/
def createPurchase (db : DB) (req : PurchaseReq) : DB × Except ApiError PurchaseDoc :=
  if jsFalsyId req.supplier || req.items.isEmpty then
    (db, .error ⟨400, "Supplier and at least one item are required"⟩)
  else
    match findSupplier db (req.supplier.getD 0) with
    | none => (db, .error ⟨404, "Supplier not found"⟩)
    | some sup =>
      if !sup.isActive then (db, .error ⟨404, "Supplier not found"⟩)
      else
        match purchaseLoop db req.items with
        | .error e => (db, .error e)
        | .ok (sub, items) =>
          let doc := mkPurchaseDoc db req sub items
          if validatePurchaseDoc doc then
            ({ db with purchases := db.purchases ++ [doc] }, .ok doc)
          else
            (db, .error ⟨500, "Purchase validation failed"⟩)

/-! ## Purchase update and delivery (`updatePurchase`,
`src/src/controller/purchase.controller.js` lines 210–349)

The delivered transition runs a transaction that commits the stock
increments; the purchase document itself is then written by a separate
`findByIdAndUpdate` OUTSIDE that transaction (after its commit). -/

/-- The update body fields `updatePurchase` inspects.  (Other body fields
would be passed through `$set` unchecked; the claims do not exercise
them.) -/
structure PurchaseUpd where
  status : Option String
  paymentStatus : Option String
  items : Option (List RawItem)
  taxRate : Option Rat
  discountAmount : Option Rat
  shippingCost : Option Rat
  paidAmount : Option Rat
  actualDeliveryDate : Option Nat
deriving DecidableEq, Repr

/-- The `$set` payload after the controller has augmented the request body
(recalculated fields are always written; pass-through fields only when
present in the request). -/
structure PurchaseSet where
  status : Option String
  paymentStatus : Option String
  items : Option (List OrderItem)
  subTotal : Option Rat
  taxRate : Option Rat
  taxAmount : Option Rat
  discountAmount : Option Rat
  shippingCost : Option Rat
  totalAmount : Option Rat
  paidAmount : Option Rat
  dueAmount : Option Rat
  actualDeliveryDate : Option Nat
deriving DecidableEq, Repr

/-- `needsRecalculation` (lines 227–235). -/
def needsRecalc (u : PurchaseUpd) : Bool :=
  u.items.isSome || u.taxRate.isSome || u.discountAmount.isSome ||
  u.shippingCost.isSome || u.paidAmount.isSome

/-- The delivery loop (lines 244–254): read each product from the committed
collection (no session on the read), throw 404 when missing, buffer
`quantity := read + ordered`.  The `< 0` guard is the `min: 0` validator
`save` runs. -/
def deliverLoop (db : DB) : List OrderItem → Except ApiError (List (Nat × Rat))
  | [] => .ok []
  | it :: rest =>
    match findProduct db it.product with
    | none => .error ⟨404, "Product not found"⟩
    | some p =>
      if p.quantity + it.quantity < 0 then .error ⟨500, "Product quantity below minimum"⟩
      else
        match deliverLoop db rest with
        | .error e => .error e
        | .ok buf => .ok ((it.product, p.quantity + it.quantity) :: buf)

/-- The financial recalculation (lines 274–333), producing the final `$set`
payload.  When it runs it always writes `items`, `subTotal`, `taxAmount`,
`totalAmount`, `dueAmount` and overwrites `paymentStatus` with the derived
classification; `taxRate`/`discountAmount`/`shippingCost`/`paidAmount` are
written only when the request provided them. -/
def recalcFields (db : DB) (pu : PurchaseDoc) (u : PurchaseUpd) (adate : Option Nat) :
    Except ApiError PurchaseSet :=
  if needsRecalc u then
    match (match u.items with
           | some raw => (purchaseLoop db raw).map (fun si => (si.1, some si.2))
           | none => .ok (pu.subTotal, none) :
           Except ApiError (Rat × Option (List OrderItem))) with
    | .error e => .error e
    | .ok (sub, newItems) =>
      let taxRate := u.taxRate.getD pu.taxRate
      let taxAmount := sub * taxRate / 100
      let discountAmount := u.discountAmount.getD pu.discountAmount
      let shippingCost := u.shippingCost.getD pu.shippingCost
      let totalAmount := sub + taxAmount + shippingCost - discountAmount
      let paidAmount := u.paidAmount.getD pu.paidAmount
      let dueAmount := totalAmount - paidAmount
      let pst := if dueAmount ≤ 0 then "paid" else if paidAmount > 0 then "partial" else "pending"
      .ok { status := u.status
            paymentStatus := some pst
            items := some (newItems.getD pu.items)
            subTotal := some sub
            taxRate := u.taxRate
            taxAmount := some taxAmount
            discountAmount := u.discountAmount
            shippingCost := u.shippingCost
            totalAmount := some totalAmount
            paidAmount := u.paidAmount
            dueAmount := some dueAmount
            actualDeliveryDate := adate }
  else
    .ok { status := u.status
          paymentStatus := u.paymentStatus
          items := none
          subTotal := none
          taxRate := u.taxRate
          taxAmount := none
          discountAmount := u.discountAmount
          shippingCost := u.shippingCost
          totalAmount := none
          paidAmount := u.paidAmount
          dueAmount := none
          actualDeliveryDate := adate }

/-- The update validators `findByIdAndUpdate(..., { runValidators: true })`
runs: each path present in the `$set` payload is checked against
`purchaseSchema`. -/
def validatePurchaseSet (f : PurchaseSet) : Bool :=
  (match f.status with | none => true | some s => statusEnum.contains s) &&
  (match f.paymentStatus with | none => true | some s => paymentStatusEnum.contains s) &&
  (match f.items with
   | none => true
   | some its => its.all (fun it =>
      decide (1 ≤ it.quantity) && decide (0 ≤ it.unitPrice) && decide (0 ≤ it.total))) &&
  (match f.subTotal with | none => true | some v => decide (0 ≤ v)) &&
  (match f.taxRate with | none => true | some v => decide (0 ≤ v)) &&
  (match f.taxAmount with | none => true | some v => decide (0 ≤ v)) &&
  (match f.discountAmount with | none => true | some v => decide (0 ≤ v)) &&
  (match f.shippingCost with | none => true | some v => decide (0 ≤ v)) &&
  (match f.totalAmount with | none => true | some v => decide (0 ≤ v)) &&
  (match f.paidAmount with | none => true | some v => decide (0 ≤ v)) &&
  (match f.dueAmount with | none => true | some v => decide (0 ≤ v))

/-- Apply the `$set` payload to the purchase document. -/
def applyPurchaseSet (pu : PurchaseDoc) (f : PurchaseSet) : PurchaseDoc :=
  { pu with
    status := f.status.getD pu.status
    paymentStatus := f.paymentStatus.getD pu.paymentStatus
    items := f.items.getD pu.items
    subTotal := f.subTotal.getD pu.subTotal
    taxRate := f.taxRate.getD pu.taxRate
    taxAmount := f.taxAmount.getD pu.taxAmount
    discountAmount := f.discountAmount.getD pu.discountAmount
    shippingCost := f.shippingCost.getD pu.shippingCost
    totalAmount := f.totalAmount.getD pu.totalAmount
    paidAmount := f.paidAmount.getD pu.paidAmount
    dueAmount := f.dueAmount.getD pu.dueAmount
    actualDeliveryDate :=
      match f.actualDeliveryDate with
      | none => pu.actualDeliveryDate
      | some d => some d }

/-- `updatePurchase`.  When the update transitions the status to
`"delivered"` (and the purchase is not already delivered), a transaction
increments the product quantities and commits; `actualDeliveryDate` is
forced to `now` when the request carries none.  The recalculation and the
final `findByIdAndUpdate` then run OUTSIDE that committed transaction, so
their failures leave the stock increments in place (`db1`). -/
def updatePurchase (db : DB) (pid : Nat) (u : PurchaseUpd) (now : Nat) :
    DB × Except ApiError PurchaseDoc :=
  match findPurchase db pid with
  | none => (db, .error ⟨404, "Purchase not found"⟩)
  | some pu =>
    if pu.status = "cancelled" then
      (db, .error ⟨400, "Cancelled purchase cannot be updated"⟩)
    else
      let deliver := decide (u.status = some "delivered") && decide (pu.status ≠ "delivered")
      match (if deliver then (deliverLoop db pu.items).map some else .ok none :
             Except ApiError (Option (List (Nat × Rat)))) with
      | .error e => (db, .error e)
      | .ok bufOpt =>
        let db1 :=
          match bufOpt with
          | some buf => { db with products := applyBuf db.products buf }
          | none => db
        let adate :=
          match bufOpt with
          | some _ => some (u.actualDeliveryDate.getD now)
          | none => u.actualDeliveryDate
        match recalcFields db1 pu u adate with
        | .error e => (db1, .error e)
        | .ok f =>
          if validatePurchaseSet f then
            let pu2 := applyPurchaseSet pu f
            ({ db1 with purchases := setPurchase db1.purchases pid pu2 }, .ok pu2)
          else
            (db1, .error ⟨500, "Purchase validation failed"⟩)

/-! ## Stock adjustment (`createStockAdjustment`, `src/unnamed/part_003`
lines 13–87)

The controller was written against a different schema than the one in
`src/src/models/stockAdjustment.model.js` and a different product shape
than `productSchema`:
* it reads `product.stockQuantity`, a path `productSchema` does not
  declare, so the value is `undefined`;
* it passes `{ product, adjustmentType, quantity, reason, createdBy }` to
  `StockAdjustment.create`, but the schema's paths are `reference`, `date`,
  `type`, `items`, `reason`, `notes`, `createdBy` — strict mode drops the
  unknown paths and the required `reference` and `type` are absent, so
  `create` always throws a `ValidationError`;
* its `findByIdAndUpdate` on the product writes `stockQuantity` and pushes
  onto `stockHistory`, both absent from `productSchema` and therefore
  silently discarded. -/

/-- Body of `POST /stock-adjustments`. -/
structure AdjReq where
  productId : Option Nat
  adjustmentType : Option String
  quantity : Option Rat
  reason : Option String
deriving DecidableEq, Repr

/-- The document the controller hands to `StockAdjustment.create`, after
strict mode has discarded the paths (`product`, `adjustmentType`,
`quantity`) that the schema does not declare. -/
structure AdjCreatePayload where
  reference : Option String
  type : Option String
  reason : Option String
  hasCreatedBy : Bool
deriving DecidableEq, Repr

/-- The `required`/`enum` validation `StockAdjustment.create` runs
(`stockAdjustmentSchema`). -/
def validateAdjPayload (p : AdjCreatePayload) : Bool :=
  p.reference.isSome &&
  (match p.type with | some t => adjTypeEnum.contains t | none => false) &&
  p.reason.isSome && p.hasCreatedBy

/-- `createStockAdjustment`.  The stock check compares
`product.stockQuantity` — `undefined`, since `productSchema` has no such
path — so it never fires; `StockAdjustment.create` then always rejects the
payload (missing required `reference` and `type`), the transaction aborts,
and the catch block rethrows `ApiError(500, ...)`.  The (unreachable)
success branch persists the adjustment and applies the product
`findByIdAndUpdate`, which strict mode reduces to a no-op on the
products collection. -/
def createStockAdjustment (db : DB) (req : AdjReq) : DB × Except ApiError AdjustmentDoc :=
  if jsFalsyId req.productId || jsFalsyStr req.adjustmentType ||
     jsFalsyNum req.quantity || jsFalsyStr req.reason then
    (db, .error ⟨400, "All fields are required"⟩)
  else
    let t := req.adjustmentType.getD ""
    let q := req.quantity.getD 0
    if t ≠ "increase" && t ≠ "decrease" then
      (db, .error ⟨400, "Adjustment type must be either increase or decrease"⟩)
    else if q ≤ 0 then
      (db, .error ⟨400, "Quantity must be greater than 0"⟩)
    else
      match findProduct db (req.productId.getD 0) with
      | none => (db, .error ⟨404, "Product not found"⟩)
      | some _product =>
        let stockQuantity : Option Rat := none
        if t = "decrease" && jsUndefLt stockQuantity q then
          (db, .error ⟨400, "Cannot decrease more than available"⟩)
        else
          let payload : AdjCreatePayload :=
            { reference := none, type := none, reason := req.reason, hasCreatedBy := true }
          if validateAdjPayload payload then
            let doc : AdjustmentDoc :=
              { reference := (payload.reference).getD ""
                type := (payload.type).getD ""
                reason := (payload.reason).getD "" }
            ({ db with adjustments := db.adjustments ++ [doc] }, .ok doc)
          else
            (db, .error ⟨500, "Something went wrong while adjusting stock"⟩)

/-! ## Two concurrent `createSale` requests

A single-item `createSale` interacts with the shared store in two observable
steps:
1. the validation read — `Product.findById` WITHOUT the session, i.e.
   against the latest committed state (this is `saleLoop`);
2. the session's buffered writes plus `Sale.create` and
   `commitTransaction`, which publish atomically (this is the commit branch
   of `createSale`).

The interleaving model below runs two such requests step by step against
one committed database, reusing `saleLoop`, `mkSaleDoc`, `validateSaleDoc`
and `applyBuf` unchanged, so a transaction run to completion on its own
behaves exactly like `createSale` (`txRun_two_eq_createSale`). -/

/-- Phase of one in-flight single-item sale transaction. -/
inductive TxPhase where
  | start : TxPhase
  | validated : Rat → List OrderItem → List (Nat × Rat) → TxPhase
  | committed : SaleDoc → TxPhase
  | failed : ApiError → TxPhase
deriving DecidableEq, Repr

/-- The single-item request a transaction of the model executes. -/
def singleReq (raw : RawItem) (cust : String) : SaleReq :=
  { customerName := some cust, items := [raw], taxRate := none, discountAmount := none,
    paidAmount := none, paymentStatus := none, paymentMethod := none }

/-- One step of a transaction: from `start`, perform the out-of-session
validation read; from `validated`, build the sale document (the invoice
read and `Sale.create` also see the then-committed state) and commit the
buffered writes.  Finished transactions do not move. -/
def txStep (raw : RawItem) (cust : String) : DB × TxPhase → DB × TxPhase
  | (db, .start) =>
    match saleLoop db [raw] with
    | .error e => (db, .failed e)
    | .ok (sub, items, buf) => (db, .validated sub items buf)
  | (db, .validated sub items buf) =>
    let doc := mkSaleDoc db (singleReq raw cust) sub items
    if validateSaleDoc doc then
      ({ db with products := applyBuf db.products buf, sales := db.sales ++ [doc] },
       .committed doc)
    else
      (db, .failed ⟨500, "Sale validation failed"⟩)
  | (db, .committed d) => (db, .committed d)
  | (db, .failed e) => (db, .failed e)

/-- Joint state of two concurrent sale transactions over one store. -/
structure TwoTx where
  db : DB
  t1 : TxPhase
  t2 : TxPhase
deriving DecidableEq, Repr

/-- Run a schedule: `true` gives the next step to transaction 1, `false`
to transaction 2. -/
def twoRun (raw1 raw2 : RawItem) (c1 c2 : String) : TwoTx → List Bool → TwoTx
  | s, [] => s
  | s, turn :: rest =>
    let s' :=
      if turn then
        let (db, t) := txStep raw1 c1 (s.db, s.t1)
        { s with db := db, t1 := t }
      else
        let (db, t) := txStep raw2 c2 (s.db, s.t2)
        { s with db := db, t2 := t }
    twoRun raw1 raw2 c1 c2 s' rest

/-- `true` iff the transaction reached its commit. -/
def TxPhase.isCommitted : TxPhase → Bool
  | .committed _ => true
  | _ => false

/-! ## Invariants and concrete witness data -/

/-- All quantities-on-hand are non-negative (the `min: 0` constraint of
`productSchema.quantity`). -/
def NonnegDB (db : DB) : Prop := ∀ p ∈ db.products, 0 ≤ p.quantity

/-- Sale document ids are list positions (how `createSale` assigns them),
so they are all below the collection size. -/
def SaleIdsBounded (db : DB) : Prop := ∀ s ∈ db.sales, s.id < db.sales.length

/-- Witness product: active, quantity-on-hand 5. -/
def wProduct : Product := ⟨1, true, 5⟩

/-- Witness database: one product, one supplier, nothing else. -/
def wDB : DB := ⟨[wProduct], [⟨7, true⟩], [], [], [], []⟩

/-- Witness line item: 2 units of product 1 at price 10. -/
def wItem : RawItem := ⟨some 1, some 2, some 10⟩

/-- Witness sale request: one item, tax rate 10, discount 5, nothing paid. -/
def wSaleReq : SaleReq := ⟨some "Alice", [wItem], some 10, some 5, none, none, none⟩

/-- A sale request whose second line item requests 99 units — more than the
available 5 — so the request fails on item 2 after item 1 was processed. -/
def wFailReq : SaleReq :=
  ⟨some "Alice", [wItem, ⟨some 1, some 99, some 10⟩], none, none, none, none, none⟩

/-- A sale request carrying `paymentStatus: "paid"` while paying nothing. -/
def wPaid0Req : SaleReq :=
  ⟨some "Ann", [⟨some 1, some 1, some 100⟩], none, none, none, some "paid", none⟩

/-- Adjustment request: decrease by 10 a product holding only 5. -/
def wAdjDecReq : AdjReq := ⟨some 1, some "decrease", some 10, some "damage"⟩

/-- Adjustment request: increase by 3. -/
def wAdjIncReq : AdjReq := ⟨some 1, some "increase", some 3, some "recount"⟩

/-- A line item requesting the full available stock (5 units) of product 1. -/
def wFullItem : RawItem := ⟨some 1, some 5, some 10⟩

/-- Two concurrent sale requests for the full stock of product 1, run under
the given schedule. -/
def wTwoRun (sched : List Bool) : TwoTx :=
  twoRun wFullItem wFullItem "Bo" "Cy" ⟨wDB, .start, .start⟩ sched

/-- Purchase request: 1 unit at 100, tax rate 10, discount 5, 50 paid. -/
def wPurchaseReq : PurchaseReq :=
  ⟨some 7, [⟨some 1, some 1, some 100⟩], some 10, some 5, none, some 50, none, none⟩

/-- A pending purchase of 5 units of product 1. -/
def wPurchase : PurchaseDoc :=
  ⟨0, 1, 7, [⟨1, 5, 10, 50⟩], 50, 0, 0, 0, 0, 50, "pending", "cash", 0, 50, "pending", none⟩

/-- Database holding the pending purchase `wPurchase`. -/
def wDBP : DB := ⟨[wProduct], [⟨7, true⟩], [], [wPurchase], [], []⟩

/-- Delivery update that also carries an invalid `paymentStatus`, so the
final non-transactional `findByIdAndUpdate` fails its validators. -/
def wBadUpd : PurchaseUpd := ⟨some "delivered", some "bogus", none, none, none, none, none, none⟩

/-- Plain delivery update. -/
def wGoodUpd : PurchaseUpd := ⟨some "delivered", none, none, none, none, none, none, none⟩

/-- A committed sale holding two line items for the SAME product (3 and 4
units of product 1). -/
def wDupSale : SaleDoc :=
  ⟨0, 1, "Ann", [⟨1, 3, 10, 30⟩, ⟨1, 4, 10, 40⟩], 70, 0, 0, 0, 70, "pending", "cash", 0, 0, 70⟩

/-- Database holding `wDupSale` with product 1 at quantity 0. -/
def wDupDB : DB := ⟨[⟨1, true, 0⟩], [], [wDupSale], [], [], []⟩

/-- A committed sale whose line item references product 42, which does not
exist in the products collection. -/
def wMissSale : SaleDoc :=
  ⟨0, 1, "Ann", [⟨42, 3, 10, 30⟩], 30, 0, 0, 0, 30, "pending", "cash", 0, 0, 30⟩

/-- Database holding `wMissSale`; product 42 is absent. -/
def wMissDB : DB := ⟨[wProduct], [], [wMissSale], [], [], []⟩

/-- An already-cancelled sale. -/
def wCancelledSale : SaleDoc :=
  ⟨0, 1, "Ann", [⟨1, 2, 10, 20⟩], 20, 0, 0, 0, 20, "cancelled", "cash", 0, 0, 20⟩

/-- Database holding the cancelled sale `wCancelledSale`. -/
def wCancelledDB : DB := ⟨[wProduct], [], [wCancelledSale], [], [], []⟩

/-- A pending committed sale of 2 units of product 1. -/
def wPlainSale : SaleDoc :=
  ⟨0, 1, "Ann", [⟨1, 2, 10, 20⟩], 20, 0, 0, 0, 20, "pending", "cash", 0, 0, 20⟩

/-- Database holding `wPlainSale` and product 1 at quantity 5. -/
def wPlainDB : DB := ⟨[wProduct], [], [wPlainSale], [], [], []⟩

/-- The sale document `createSale wDB wSaleReq` commits (see
`claim4_sale_money_witness`). -/
def wCreatedSale : SaleDoc :=
  ⟨0, 1, "Alice", [⟨1, 2, 10, 20⟩], 20, 10, 2, 5, 17, "pending", "cash", 0, 0, 17⟩

/-- The purchase document `createPurchase wDB wPurchaseReq` commits (see
`claim8_purchase_money_witness`): totals 105, 50 paid, 55 due, status
`"pending"`. -/
def wCreatedPurchase : PurchaseDoc :=
  ⟨0, 1, 7, [⟨1, 1, 100, 100⟩], 100, 10, 10, 5, 0, 105, "pending", "cash", 50, 55, "pending", none⟩

/-! # Theorems -/

/-- A transaction run to completion on its own is exactly `createSale` of
its single-item request: the model adds no behaviour beyond the source. -/
theorem txRun_two_eq_createSale (db : DB) (raw : RawItem) (cust : String) (h : cust ≠ "") :
    (twoRun raw raw cust cust ⟨db, .start, .start⟩ [true, true]).db =
      (createSale db (singleReq raw cust)).1 ∧
    ((twoRun raw raw cust cust ⟨db, .start, .start⟩ [true, true]).t1.isCommitted = true ↔
      ∃ d, (createSale db (singleReq raw cust)).2 = .ok d) := by
  have hfalsy : jsFalsyStr (some cust) = false := by
    simp [jsFalsyStr, h]
  cases hloop : saleLoop db [raw] with
  | error e =>
    constructor
    · simp [twoRun, txStep, hloop, createSale, singleReq, jsFalsyStr, h]
    · simp [twoRun, txStep, hloop, createSale, singleReq, jsFalsyStr, h, TxPhase.isCommitted]
  | ok v =>
    obtain ⟨sub, items, buf⟩ := v
    by_cases hval : validateSaleDoc (mkSaleDoc db (singleReq raw cust) sub items) = true
    all_goals simp only [singleReq] at hval
    · constructor
      · simp [twoRun, txStep, hloop, hval, createSale, singleReq, jsFalsyStr, h]
      · simp [twoRun, txStep, hloop, hval, createSale, singleReq, jsFalsyStr, h,
          TxPhase.isCommitted]
    · rw [Bool.not_eq_true] at hval
      constructor
      · simp [twoRun, txStep, hloop, hval, createSale, singleReq, jsFalsyStr, h]
      · simp [twoRun, txStep, hloop, hval, createSale, singleReq, jsFalsyStr, h,
          TxPhase.isCommitted]

/-! ## Shared lemmas -/

/-- Every write the sale loop buffers has a non-negative quantity: the
stock check and the `min: 0` validator guard each one. -/
theorem saleLoop_buf_nonneg (db : DB) :
    ∀ (items : List RawItem) (sub : Rat) (its : List OrderItem) (buf : List (Nat × Rat)),
      saleLoop db items = .ok (sub, its, buf) → ∀ pq ∈ buf, 0 ≤ pq.2 := by
  intro items
  induction items with
  | nil =>
    intro sub its buf h pq hpq
    simp only [saleLoop, Except.ok.injEq, Prod.mk.injEq] at h
    rw [← h.2.2] at hpq
    simp at hpq
  | cons item rest ih =>
    intro sub its buf h pq hpq
    rw [saleLoop] at h
    dsimp only at h
    repeat' split at h
    any_goals exact Except.noConfusion h
    simp only [Except.ok.injEq, Prod.mk.injEq] at h
    rw [← h.2.2] at hpq
    rcases List.mem_cons.mp hpq with hhd | htl
    · rw [hhd]
      rename_i hmin _ _ _ _ _
      dsimp only
      linarith [not_lt.mp hmin]
    · exact ih _ _ _ (by assumption) pq htl

/-- Every write the cancel loop buffers has a non-negative quantity. -/
theorem cancelLoop_buf_nonneg (db : DB) :
    ∀ (items : List OrderItem) (buf : List (Nat × Rat)),
      cancelLoop db items = .ok buf → ∀ pq ∈ buf, 0 ≤ pq.2 := by
  intro items
  induction items with
  | nil =>
    intro buf h pq hpq
    simp only [cancelLoop, Except.ok.injEq] at h
    rw [← h] at hpq
    simp at hpq
  | cons it rest ih =>
    intro buf h pq hpq
    rw [cancelLoop] at h
    split at h
    · exact ih buf h pq hpq
    · rename_i p hp
      split at h
      · exact Except.noConfusion h
      · rename_i hmin
        split at h
        · exact Except.noConfusion h
        · rename_i buf' hrest
          simp only [Except.ok.injEq] at h
          rw [← h] at hpq
          rcases List.mem_cons.mp hpq with hhd | htl
          · rw [hhd]
            exact not_lt.mp hmin
          · exact ih buf' hrest pq htl

/-- `applyBuf` preserves non-negativity of all quantities when every
buffered write is non-negative. -/
theorem applyBuf_nonneg :
    ∀ (buf : List (Nat × Rat)) (ps : List Product),
      (∀ p ∈ ps, 0 ≤ p.quantity) → (∀ pq ∈ buf, 0 ≤ pq.2) →
      ∀ p ∈ applyBuf ps buf, 0 ≤ p.quantity := by
  intro buf
  induction buf with
  | nil =>
    intro ps hps _ p hp
    rw [applyBuf] at hp
    exact hps p hp
  | cons pr rest ih =>
    intro ps hps hbuf p hp
    obtain ⟨pid, q⟩ := pr
    rw [applyBuf] at hp
    refine ih (setQty ps pid q) ?_ (fun pq hpq => hbuf pq (List.mem_cons_of_mem _ hpq)) p hp
    intro x hx
    simp only [setQty, List.mem_map] at hx
    obtain ⟨y, hy, rfl⟩ := hx
    by_cases hid : y.id = pid
    · simpa [hid] using hbuf (pid, q) (List.mem_cons_self _ _)
    · simpa [hid] using hps y hy

/-- `find?` on a `setQty`-mapped list: the found element (if any) is the
original one, with its quantity overwritten when its id matches. -/
theorem find?_setQty (ps : List Product) (pid tgt : Nat) (q : Rat) :
    (setQty ps pid q).find? (fun p => p.id = tgt) =
      (ps.find? (fun p => p.id = tgt)).map
        (fun p => if p.id = pid then { p with quantity := q } else p) := by
  induction ps with
  | nil => rfl
  | cons a ps ih =>
    have hid : (if a.id = pid then { a with quantity := q } else a).id = a.id := by
      split <;> rfl
    simp only [setQty] at ih ⊢
    rw [List.map_cons, List.find?_cons, List.find?_cons, hid]
    by_cases h : a.id = tgt
    · rw [decide_eq_true h]
      simp
    · rw [decide_eq_false h]
      exact ih

/-- Products absent from the collection stay absent under `applyBuf` (the
buffer only overwrites quantities, it never inserts documents). -/
theorem find?_applyBuf_none :
    ∀ (buf : List (Nat × Rat)) (ps : List Product) (tgt : Nat),
      ps.find? (fun p => p.id = tgt) = none →
      (applyBuf ps buf).find? (fun p => p.id = tgt) = none := by
  intro buf
  induction buf with
  | nil =>
    intro ps tgt h
    rw [applyBuf]
    exact h
  | cons pr rest ih =>
    intro ps tgt h
    obtain ⟨pid, q⟩ := pr
    rw [applyBuf]
    exact ih _ tgt (by rw [find?_setQty, h]; rfl)

/-- Products whose id is not written by the buffer keep their document. -/
theorem find?_applyBuf_not_mem :
    ∀ (buf : List (Nat × Rat)) (ps : List Product) (tgt : Nat),
      tgt ∉ buf.map Prod.fst →
      (applyBuf ps buf).find? (fun p => p.id = tgt) = ps.find? (fun p => p.id = tgt) := by
  intro buf
  induction buf with
  | nil =>
    intro ps tgt _
    rw [applyBuf]
  | cons pr rest ih =>
    intro ps tgt hmem
    obtain ⟨pid, q⟩ := pr
    simp only [List.map_cons, List.mem_cons] at hmem
    push_neg at hmem
    rw [applyBuf, ih _ tgt hmem.2, find?_setQty]
    cases hf : ps.find? (fun p => p.id = tgt) with
    | none => rfl
    | some p =>
      have hp : p.id = tgt := by simpa using List.find?_some hf
      have hne : ¬ p.id = pid := by
        rw [hp]
        exact hmem.1
      simp [hne]

/-- A buffered write `(pid, q)` in a buffer whose written ids are distinct
overwrites exactly the quantity of the product `pid`. -/
theorem find?_applyBuf_mem :
    ∀ (buf : List (Nat × Rat)) (ps : List Product) (pid : Nat) (q : Rat),
      (buf.map Prod.fst).Nodup → (pid, q) ∈ buf →
      (applyBuf ps buf).find? (fun p => p.id = pid) =
        (ps.find? (fun p => p.id = pid)).map (fun p => { p with quantity := q }) := by
  intro buf
  induction buf with
  | nil =>
    intro ps pid q _ hmem
    simp at hmem
  | cons pr rest ih =>
    intro ps pid q hnd hmem
    obtain ⟨pid', q'⟩ := pr
    simp only [List.map_cons, List.nodup_cons] at hnd
    rcases List.mem_cons.mp hmem with hhd | htl
    · injection hhd with h1 h2
      subst h1; subst h2
      rw [applyBuf, find?_applyBuf_not_mem rest _ pid hnd.1, find?_setQty]
      cases hf : ps.find? (fun p => p.id = pid) with
      | none => rfl
      | some p =>
        have hp : p.id = pid := by simpa using List.find?_some hf
        simp [hp]
    · have hne : pid ≠ pid' := by
        intro hh
        exact hnd.1 (hh ▸ List.mem_map.mpr ⟨(pid, q), htl, rfl⟩)
      rw [applyBuf, ih _ pid q hnd.2 htl, find?_setQty]
      cases hf : ps.find? (fun p => p.id = pid) with
      | none => rfl
      | some p =>
        have hp : p.id = pid := by simpa using List.find?_some hf
        simp [hp, hne]

/-- Case analysis of `createSale`: either it aborts with the database
unchanged, or the loop and the validation succeeded and it commits the
buffered writes together with the new document. -/
theorem createSale_cases (db : DB) (req : SaleReq) :
    (∃ e, createSale db req = (db, .error e)) ∨
    (∃ sub items buf,
      saleLoop db req.items = .ok (sub, items, buf) ∧
      validateSaleDoc (mkSaleDoc db req sub items) = true ∧
      createSale db req =
        ({ db with
            products := applyBuf db.products buf
            sales := db.sales ++ [mkSaleDoc db req sub items] },
          .ok (mkSaleDoc db req sub items))) := by
  by_cases h1 : req.items.isEmpty = true
  · exact .inl ⟨⟨400, "At least one item is required"⟩, by simp [createSale, h1]⟩
  · rw [Bool.not_eq_true] at h1
    by_cases h2 : jsFalsyStr req.customerName = true
    · exact .inl ⟨⟨400, "Customer name is required"⟩, by simp [createSale, h1, h2]⟩
    · rw [Bool.not_eq_true] at h2
      cases h : saleLoop db req.items with
      | error e => exact .inl ⟨e, by simp [createSale, h1, h2, h]⟩
      | ok v =>
        obtain ⟨sub, items, buf⟩ := v
        by_cases hv : validateSaleDoc (mkSaleDoc db req sub items) = true
        · refine .inr ⟨sub, items, buf, ?_, hv, ?_⟩
          · rfl
          · simp [createSale, h1, h2, h, hv]
        · rw [Bool.not_eq_true] at hv
          exact .inl ⟨⟨500, "Sale validation failed"⟩, by simp [createSale, h1, h2, h, hv]⟩

/-- A failed `createSale` aborts its transaction: the committed database is
returned unchanged. -/
theorem createSale_abort (db : DB) (req : SaleReq) (e : ApiError)
    (h : (createSale db req).2 = .error e) : (createSale db req).1 = db := by
  rcases createSale_cases db req with ⟨e', he⟩ | ⟨sub, items, buf, _, _, he⟩
  · rw [he]
  · rw [he] at h
    exact absurd h (by simp)

/-- The accumulated `subTotal` of a successful sale loop is the sum of
`quantity * unitPrice` over the validated items (each persisted item's
`total` is exactly that product). -/
theorem saleLoop_subTotal (db : DB) :
    ∀ (items0 : List RawItem) (sub : Rat) (its : List OrderItem) (buf : List (Nat × Rat)),
      saleLoop db items0 = .ok (sub, its, buf) →
      sub = (its.map (fun it => it.quantity * it.unitPrice)).sum := by
  intro items0
  induction items0 with
  | nil =>
    intro sub its buf h
    simp only [saleLoop, Except.ok.injEq, Prod.mk.injEq] at h
    rw [← h.1, ← h.2.1]
    simp
  | cons item rest ih =>
    intro sub its buf h
    rw [saleLoop] at h
    dsimp only at h
    repeat' split at h
    any_goals exact Except.noConfusion h
    simp only [Except.ok.injEq, Prod.mk.injEq] at h
    rw [← h.1, ← h.2.1]
    rename_i sub' its' buf' hrest
    simp only [List.map_cons, List.sum_cons]
    rw [ih _ _ _ hrest]

/-- Case analysis of `createPurchase`: either it fails with the database
unchanged, or the validation loop and the schema validation succeeded and
the purchase document is appended. -/
theorem createPurchase_cases (db : DB) (req : PurchaseReq) :
    (∃ e, createPurchase db req = (db, .error e)) ∨
    (∃ sub items,
      purchaseLoop db req.items = .ok (sub, items) ∧
      validatePurchaseDoc (mkPurchaseDoc db req sub items) = true ∧
      createPurchase db req =
        ({ db with purchases := db.purchases ++ [mkPurchaseDoc db req sub items] },
          .ok (mkPurchaseDoc db req sub items))) := by
  by_cases h1 : (jsFalsyId req.supplier || req.items.isEmpty) = true
  · exact .inl ⟨⟨400, "Supplier and at least one item are required"⟩,
      by simp [createPurchase, h1]⟩
  · rw [Bool.not_eq_true] at h1
    cases hs : findSupplier db (req.supplier.getD 0) with
    | none => exact .inl ⟨⟨404, "Supplier not found"⟩, by simp [createPurchase, h1, hs]⟩
    | some sup =>
      by_cases ha : sup.isActive = true
      · cases h : purchaseLoop db req.items with
        | error e => exact .inl ⟨e, by simp [createPurchase, h1, hs, ha, h]⟩
        | ok v =>
          obtain ⟨sub, items⟩ := v
          by_cases hv : validatePurchaseDoc (mkPurchaseDoc db req sub items) = true
          · refine .inr ⟨sub, items, rfl, hv, ?_⟩
            simp [createPurchase, h1, hs, ha, h, hv]
          · rw [Bool.not_eq_true] at hv
            exact .inl ⟨⟨500, "Purchase validation failed"⟩,
              by simp [createPurchase, h1, hs, ha, h, hv]⟩
      · rw [Bool.not_eq_true] at ha
        exact .inl ⟨⟨404, "Supplier not found"⟩, by simp [createPurchase, h1, hs, ha]⟩

/-- `createStockAdjustment` never changes the products collection: its only
product write targets schema-less paths that strict mode discards, and it
is unreachable anyway because `StockAdjustment.create` always rejects the
controller's payload. -/
theorem createStockAdjustment_products (db : DB) (req : AdjReq) :
    (createStockAdjustment db req).1.products = db.products := by
  rw [createStockAdjustment]
  dsimp only
  repeat' split
  all_goals rfl

/-- `createStockAdjustment` always returns the database unchanged: every
request fails at `StockAdjustment.create` (the payload lacks the schema's
required `reference` and `type`), or earlier. -/
theorem createStockAdjustment_fst (db : DB) (req : AdjReq) :
    (createStockAdjustment db req).1 = db := by
  rw [createStockAdjustment]
  dsimp only
  repeat' split
  all_goals first
  | rfl
  | (rename_i hval; exact absurd hval (by simp [validateAdjPayload]))

/-- Full characterization of a cancel loop that never trips the `min: 0`
validator: it succeeds, buffers one restore per line item whose product
still exists (silently skipping the rest), and each buffered value is the
committed quantity plus the item's quantity. -/
theorem cancelLoop_ok (db : DB) :
    ∀ (items : List OrderItem),
      (∀ it ∈ items, ∀ p, findProduct db it.product = some p → 0 ≤ p.quantity + it.quantity) →
      ∃ buf, cancelLoop db items = .ok buf ∧
        (buf.map Prod.fst).Sublist (items.map (fun it => it.product)) ∧
        (∀ it ∈ items, ∀ p, findProduct db it.product = some p →
          (it.product, p.quantity + it.quantity) ∈ buf) := by
  intro items
  induction items with
  | nil =>
    intro _
    exact ⟨[], rfl, by simp, by simp⟩
  | cons it rest ih =>
    intro h
    obtain ⟨buf', hrest, hsub, hmem⟩ := ih (fun x hx => h x (List.mem_cons_of_mem _ hx))
    cases hp : findProduct db it.product with
    | none =>
      refine ⟨buf', ?_, ?_, ?_⟩
      · simp only [cancelLoop, hp]
        exact hrest
      · exact hsub.trans (List.sublist_cons_self _ _)
      · intro x hx p hfp
        rcases List.mem_cons.mp hx with rfl | hx'
        · rw [hp] at hfp
          exact Option.noConfusion hfp
        · exact hmem x hx' p hfp
    | some p0 =>
      have hge : ¬ (p0.quantity + it.quantity < 0) :=
        not_lt.mpr (h it (List.mem_cons_self _ _) p0 hp)
      refine ⟨(it.product, p0.quantity + it.quantity) :: buf', ?_, ?_, ?_⟩
      · simp only [cancelLoop, hp, if_neg hge, hrest]
      · simp only [List.map_cons]
        exact hsub.cons₂ _
      · intro x hx p hfp
        rcases List.mem_cons.mp hx with rfl | hx'
        · rw [hp] at hfp
          injection hfp with hfp
          subst hfp
          exact List.mem_cons_self _ _
        · exact List.mem_cons_of_mem _ (hmem x hx' p hfp)

/-- Full characterization of a delivery loop over items whose products all
exist: it succeeds, buffering exactly one increment per line item. -/
theorem deliverLoop_ok (db : DB) :
    ∀ (items : List OrderItem),
      (∀ it ∈ items, (findProduct db it.product).isSome = true) →
      (∀ it ∈ items, ∀ p, findProduct db it.product = some p → 0 ≤ p.quantity + it.quantity) →
      ∃ buf, deliverLoop db items = .ok buf ∧
        buf.map Prod.fst = items.map (fun it => it.product) ∧
        (∀ it ∈ items, ∀ p, findProduct db it.product = some p →
          (it.product, p.quantity + it.quantity) ∈ buf) := by
  intro items
  induction items with
  | nil =>
    intro _ _
    exact ⟨[], rfl, by simp, by simp⟩
  | cons it rest ih =>
    intro hall h
    obtain ⟨buf', hrest, hids, hmem⟩ :=
      ih (fun x hx => hall x (List.mem_cons_of_mem _ hx))
        (fun x hx => h x (List.mem_cons_of_mem _ hx))
    cases hp : findProduct db it.product with
    | none =>
      have := hall it (List.mem_cons_self _ _)
      rw [hp] at this
      exact absurd this (by simp)
    | some p0 =>
      have hge : ¬ (p0.quantity + it.quantity < 0) :=
        not_lt.mpr (h it (List.mem_cons_self _ _) p0 hp)
      refine ⟨(it.product, p0.quantity + it.quantity) :: buf', ?_, ?_, ?_⟩
      · simp only [deliverLoop, hp, if_neg hge, hrest]
      · simp only [List.map_cons, hids]
      · intro x hx p hfp
        rcases List.mem_cons.mp hx with rfl | hx'
        · rw [hp] at hfp
          injection hfp with hfp
          subst hfp
          exact List.mem_cons_self _ _
        · exact List.mem_cons_of_mem _ (hmem x hx' p hfp)

/-- A `cancelSale` whose target exists, is not yet cancelled, and whose
restore loop succeeds commits the buffered restores and marks the sale
cancelled. -/
theorem cancelSale_ok (db : DB) (sid : Nat) (s : SaleDoc)
    (hfind : findSale db sid = some s) (hnc : ¬ s.paymentStatus = "cancelled")
    (buf : List (Nat × Rat)) (hloop : cancelLoop db s.items = .ok buf) :
    cancelSale db sid =
      ({ db with
          products := applyBuf db.products buf
          sales := setSale db.sales sid { s with paymentStatus := "cancelled" } },
        .ok { s with paymentStatus := "cancelled" }) := by
  simp only [cancelSale, hfind]
  rw [if_neg hnc]
  simp only [hloop]

/-- `find?` on a `setSale`-mapped collection, when the replacement document
keeps the searched id: the first hit is replaced. -/
theorem findSale_setSale (sales : List SaleDoc) (sid : Nat) (s2 : SaleDoc)
    (h2 : s2.id = sid) :
    (setSale sales sid s2).find? (fun x => x.id = sid) =
      (sales.find? (fun x => x.id = sid)).map (fun _ => s2) := by
  induction sales with
  | nil => rfl
  | cons a l ih =>
    simp only [setSale, List.map_cons] at ih ⊢
    rw [List.find?_cons, List.find?_cons]
    by_cases h : a.id = sid
    · rw [if_pos h, decide_eq_true h2, decide_eq_true h]
      rfl
    · rw [if_neg h, decide_eq_false h]
      exact ih

/-- `find?` over a collection extended with a freshly-numbered document
finds that document (all existing ids are below the collection size, the
new id is exactly the size). -/
theorem find?_append_fresh (sales : List SaleDoc) (doc : SaleDoc)
    (hb : ∀ s ∈ sales, s.id < sales.length) (hid : doc.id = sales.length) :
    (sales ++ [doc]).find? (fun x => x.id = doc.id) = some doc := by
  have hnone : sales.find? (fun x => x.id = doc.id) = none := by
    rw [List.find?_eq_none]
    intro x hx
    simp only [decide_eq_true_eq]
    intro hxe
    rw [hid] at hxe
    exact absurd (hxe ▸ hb x hx) (lt_irrefl _)
  rw [List.find?_append, hnone, Option.none_or, List.find?_cons,
    decide_eq_true (rfl : doc.id = doc.id)]

/-! ## Claim C1 — non-negative stock invariant -/

/-- C1: for every committed sale and committed stock adjustment (in
particular of type decrease), every product's quantity-on-hand stays
non-negative; an operation that would drive a quantity negative is rejected
with the database unchanged (no line item of it applied). -/
theorem claim1_nonneg_invariant (db : DB) (sreq : SaleReq) (areq : AdjReq)
    (h : NonnegDB db) :
    NonnegDB (createSale db sreq).1 ∧
    (∀ e, (createSale db sreq).2 = .error e → (createSale db sreq).1 = db) ∧
    NonnegDB (createStockAdjustment db areq).1 ∧
    (∀ e, (createStockAdjustment db areq).2 = .error e →
      (createStockAdjustment db areq).1 = db) := by
  refine ⟨?_, fun e he => createSale_abort db sreq e he, ?_,
    fun e _ => createStockAdjustment_fst db areq⟩
  · rcases createSale_cases db sreq with ⟨e, he⟩ | ⟨sub, items, buf, hloop, hv, he⟩
    · rw [he]
      exact h
    · rw [he]
      intro p hp
      exact applyBuf_nonneg buf db.products h
        (saleLoop_buf_nonneg db sreq.items sub items buf hloop) p hp
  · rw [createStockAdjustment_fst db areq]
    exact h

/-- Witness for C1 at the concrete store `wDB`. -/
theorem claim1_nonneg_invariant_witness :
    NonnegDB wDB ∧ NonnegDB (createSale wDB wSaleReq).1 ∧
    NonnegDB (createStockAdjustment wDB wAdjDecReq).1 :=
  have h : NonnegDB wDB := by
    intro p hp
    norm_num [wDB, wProduct] at hp
    norm_num [hp]
  ⟨h, (claim1_nonneg_invariant wDB wSaleReq wAdjDecReq h).1,
    (claim1_nonneg_invariant wDB wSaleReq wAdjDecReq h).2.2.1⟩

/-! ## Claim C2 — multi-item sale atomicity -/

/-- C2: when any line item of a multi-item sale fails validation or stock
mutation, the whole transaction aborts: no stock mutation from the earlier
line items is observable — the committed database is exactly the one from
before the request. -/
theorem claim2_sale_atomicity (db : DB) (req : SaleReq) (e : ApiError)
    (h : (createSale db req).2 = .error e) :
    (createSale db req).1 = db :=
  createSale_abort db req e h

/-- Witness for C2: a two-item sale whose second item requests 99 of the 5
available units fails, and the first item's decrement (buffered inside the
transaction) is not observable afterwards. -/
theorem claim2_sale_atomicity_witness :
    (createSale wDB wFailReq).2 = .error ⟨400, "Not enough stock"⟩ ∧
    (createSale wDB wFailReq).1 = wDB :=
  have h : (createSale wDB wFailReq).2 = .error ⟨400, "Not enough stock"⟩ := by
    norm_num [createSale, saleLoop, mkSaleDoc, validateSaleDoc, generateInvoiceNumber,
      findProduct, applyBuf, setQty, jsFalsyNum, jsFalsyStr, jsOrNum, jsOrStr,
      paymentStatusEnum, paymentMethodEnum, wDB, wProduct, wFailReq, wItem] <;> decide
  ⟨h, claim2_sale_atomicity wDB wFailReq _ h⟩

/-! ## Claim C4 — sale money computation -/

/-- C4 as stated is false: the pending branch of the payment-status
classification is only a default.  A sale request carrying
`paymentStatus: "paid"` with `paidAmount = 0` commits with
`paymentStatus = "paid"` although `0 = paidAmount < totalAmount = 100`,
where the claim requires `"pending"`. -/
theorem claim4_counterexample :
    (createSale wDB wPaid0Req).2.map (fun d => (d.paidAmount, d.totalAmount, d.paymentStatus)) =
      .ok (0, 100, "paid") := by
  norm_num [createSale, saleLoop, mkSaleDoc, validateSaleDoc, generateInvoiceNumber,
    findProduct, applyBuf, setQty, jsFalsyNum, jsFalsyStr, jsOrNum, jsOrStr,
    paymentStatusEnum, paymentMethodEnum, wDB, wProduct, wPaid0Req] <;> decide

/-- C4 (amended): for every successfully created sale the persisted fields
satisfy `subTotal = Σ quantity·unitPrice`, `taxAmount = subTotal·taxRate/100`,
`totalAmount = subTotal + taxAmount − discountAmount`; if
`paidAmount ≥ totalAmount` then `dueAmount = 0`,
`changeAmount = paidAmount − totalAmount`, `paymentStatus = "paid"`;
else `dueAmount = totalAmount − paidAmount`, `changeAmount = 0`, and
`paymentStatus = "partial"` when `paidAmount > 0`, else the REQUESTED
payment status (defaulting to `"pending"`). -/
theorem claim4_sale_money (db : DB) (req : SaleReq) (doc : SaleDoc)
    (h : (createSale db req).2 = .ok doc) :
    doc.subTotal = (doc.items.map (fun it => it.quantity * it.unitPrice)).sum ∧
    doc.taxAmount = doc.subTotal * doc.taxRate / 100 ∧
    doc.totalAmount = doc.subTotal + doc.taxAmount - doc.discountAmount ∧
    (doc.totalAmount ≤ doc.paidAmount →
      doc.dueAmount = 0 ∧ doc.changeAmount = doc.paidAmount - doc.totalAmount ∧
      doc.paymentStatus = "paid") ∧
    (doc.paidAmount < doc.totalAmount → 0 < doc.paidAmount →
      doc.dueAmount = doc.totalAmount - doc.paidAmount ∧ doc.changeAmount = 0 ∧
      doc.paymentStatus = "partial") ∧
    (doc.paidAmount < doc.totalAmount → doc.paidAmount ≤ 0 →
      doc.dueAmount = doc.totalAmount - doc.paidAmount ∧ doc.changeAmount = 0 ∧
      doc.paymentStatus = jsOrStr req.paymentStatus "pending") := by
  rcases createSale_cases db req with ⟨e, he⟩ | ⟨sub, items, buf, hloop, hv, he⟩
  · rw [he] at h
    exact Except.noConfusion h
  · rw [he] at h
    simp only [Except.ok.injEq] at h
    subst h
    have hsub := saleLoop_subTotal db req.items sub items buf hloop
    simp only [mkSaleDoc]
    refine ⟨hsub, trivial, trivial, fun hp => ?_, fun h1 h2 => ?_, fun h1 h2 => ?_⟩
    · rw [if_pos hp, if_pos hp]
      exact ⟨by simp, by simp, by simp⟩
    · have hnp : ¬ (sub + sub * jsOrNum req.taxRate 0 / 100 - jsOrNum req.discountAmount 0 ≤
          jsOrNum req.paidAmount 0) := not_le.mpr h1
      rw [if_neg hnp, if_neg hnp]
      refine ⟨by simp, by simp, ?_⟩
      rw [if_neg (by linarith), if_pos h2]
    · have hnp : ¬ (sub + sub * jsOrNum req.taxRate 0 / 100 - jsOrNum req.discountAmount 0 ≤
          jsOrNum req.paidAmount 0) := not_le.mpr h1
      rw [if_neg hnp, if_neg hnp]
      refine ⟨by simp, by simp, ?_⟩
      rw [if_neg (by linarith), if_neg (not_lt.mpr h2)]

/-- Witness for C4 (amended) at the committed sale of `wSaleReq`. -/
theorem claim4_sale_money_witness :
    wCreatedSale.subTotal =
      (wCreatedSale.items.map (fun it => it.quantity * it.unitPrice)).sum ∧
    wCreatedSale.taxAmount = wCreatedSale.subTotal * wCreatedSale.taxRate / 100 ∧
    wCreatedSale.totalAmount =
      wCreatedSale.subTotal + wCreatedSale.taxAmount - wCreatedSale.discountAmount ∧
    (wCreatedSale.totalAmount ≤ wCreatedSale.paidAmount →
      wCreatedSale.dueAmount = 0 ∧
      wCreatedSale.changeAmount = wCreatedSale.paidAmount - wCreatedSale.totalAmount ∧
      wCreatedSale.paymentStatus = "paid") ∧
    (wCreatedSale.paidAmount < wCreatedSale.totalAmount → 0 < wCreatedSale.paidAmount →
      wCreatedSale.dueAmount = wCreatedSale.totalAmount - wCreatedSale.paidAmount ∧
      wCreatedSale.changeAmount = 0 ∧ wCreatedSale.paymentStatus = "partial") ∧
    (wCreatedSale.paidAmount < wCreatedSale.totalAmount → wCreatedSale.paidAmount ≤ 0 →
      wCreatedSale.dueAmount = wCreatedSale.totalAmount - wCreatedSale.paidAmount ∧
      wCreatedSale.changeAmount = 0 ∧
      wCreatedSale.paymentStatus = jsOrStr wSaleReq.paymentStatus "pending") :=
  claim4_sale_money wDB wSaleReq wCreatedSale (by
    norm_num [createSale, saleLoop, mkSaleDoc, validateSaleDoc, generateInvoiceNumber,
      findProduct, applyBuf, setQty, jsFalsyNum, jsFalsyStr, jsOrNum, jsOrStr,
      paymentStatusEnum, paymentMethodEnum, wDB, wProduct, wSaleReq, wItem, wCreatedSale] <;>
      decide)

/-! ## Claim C5 — stock-ledger entries -/

/-- C5 as stated is false: a successful one-item sale appends NO stock
ledger entry — the ledger collection stays empty. -/
theorem claim5_counterexample :
    (createSale wDB wSaleReq).2.map (fun d => d.items.length) = .ok 1 ∧
    (createSale wDB wSaleReq).1.ledger = [] := by
  constructor <;>
    norm_num [createSale, saleLoop, mkSaleDoc, validateSaleDoc, generateInvoiceNumber,
      findProduct, applyBuf, setQty, jsFalsyNum, jsFalsyStr, jsOrNum, jsOrStr,
      paymentStatusEnum, paymentMethodEnum, wDB, wProduct, wSaleReq, wItem] <;> decide

/-- C5 (amended): no stock-mutating operation of the repository writes any
stock-ledger entry; the ledger collection is left untouched by sale
creation, sale cancellation, purchase creation, purchase update/delivery
and stock adjustment alike (no ledger model exists in `models/index.js`,
and the adjustment flow's `stockHistory` push targets a path absent from
the product schema). -/
theorem claim5_no_ledger_writes (db : DB) (sreq : SaleReq) (sid : Nat)
    (preq : PurchaseReq) (pid : Nat) (u : PurchaseUpd) (now : Nat) (areq : AdjReq) :
    (createSale db sreq).1.ledger = db.ledger ∧
    (cancelSale db sid).1.ledger = db.ledger ∧
    (createPurchase db preq).1.ledger = db.ledger ∧
    (updatePurchase db pid u now).1.ledger = db.ledger ∧
    (createStockAdjustment db areq).1.ledger = db.ledger := by
  refine ⟨?_, ?_, ?_, ?_, ?_⟩
  · rcases createSale_cases db sreq with ⟨e, he⟩ | ⟨sub, items, buf, _, _, he⟩ <;> rw [he]
  · rw [cancelSale]
    repeat' split
    all_goals rfl
  · rw [createPurchase]
    dsimp only
    repeat' split
    all_goals rfl
  · rw [updatePurchase]
    dsimp only
    repeat' split
    all_goals rfl
  · rw [createStockAdjustment]
    dsimp only
    repeat' split
    all_goals rfl

/-! ## Claim C6 — stock adjustment bug -/

/-- C6 describes the intended stock-adjustment behaviour, but the
controller was written against a different schema: a decrease of 10 on a
product holding 5 does NOT fail with the insufficient-stock error (the
check reads the undefined `stockQuantity` path), and a legitimate increase
of 3 does not mutate anything either — both requests fail with the catch
block's 500 error because `StockAdjustment.create` rejects a payload that
lacks the schema's required `reference` and `type`, and the database is
returned unchanged. -/
theorem claim6_stock_adjustment_bug :
    createStockAdjustment wDB wAdjDecReq =
      (wDB, .error ⟨500, "Something went wrong while adjusting stock"⟩) ∧
    createStockAdjustment wDB wAdjIncReq =
      (wDB, .error ⟨500, "Something went wrong while adjusting stock"⟩) := by
  constructor <;>
    norm_num [createStockAdjustment, validateAdjPayload, findProduct, jsFalsyId,
      jsFalsyStr, jsFalsyNum, jsUndefLt, wDB, wProduct, wAdjDecReq, wAdjIncReq,
      Prod.ext_iff] <;> decide

/-! ## Claim C8 — purchase money computation -/

/-- C8 as stated is false: `createPurchase` does not derive the payment
status from the amounts.  A purchase with `totalAmount = 105` and
`paidAmount = 50` (so `0 < paidAmount < totalAmount`) commits with
`paymentStatus = "pending"`, where the claim requires `"partial"`. -/
theorem claim8_counterexample :
    (createPurchase wDB wPurchaseReq).2.map
        (fun d => (d.paidAmount, d.totalAmount, d.paymentStatus)) =
      .ok (50, 105, "pending") := by
  norm_num [createPurchase, purchaseLoop, mkPurchaseDoc, validatePurchaseDoc,
    generateInvoiceNumber', findSupplier, findProduct, jsFalsyId, jsFalsyNum,
    jsFalsyStr, jsOrNum, jsOrStr, paymentStatusEnum, paymentMethodEnum, statusEnum,
    wDB, wProduct, wPurchaseReq] <;> decide

/-- C8 (amended): for every successfully created purchase,
`totalAmount = subTotal + taxAmount + shippingCost − discountAmount` and
`dueAmount = totalAmount − paidAmount` (with no branching — a request
paying more than the total fails schema validation instead of clamping),
`paymentStatus` is taken from the request (defaulting to `"pending"`), and
every persisted monetary field is non-negative. -/
theorem claim8_purchase_money (db : DB) (req : PurchaseReq) (doc : PurchaseDoc)
    (h : (createPurchase db req).2 = .ok doc) :
    doc.totalAmount = doc.subTotal + doc.taxAmount + doc.shippingCost - doc.discountAmount ∧
    doc.dueAmount = doc.totalAmount - doc.paidAmount ∧
    doc.paymentStatus = jsOrStr req.paymentStatus "pending" ∧
    0 ≤ doc.subTotal ∧ 0 ≤ doc.taxAmount ∧ 0 ≤ doc.discountAmount ∧
    0 ≤ doc.shippingCost ∧ 0 ≤ doc.totalAmount ∧ 0 ≤ doc.paidAmount ∧ 0 ≤ doc.dueAmount := by
  rcases createPurchase_cases db req with ⟨e, he⟩ | ⟨sub, items, hloop, hv, he⟩
  · rw [he] at h
    exact Except.noConfusion h
  · rw [he] at h
    simp only [Except.ok.injEq] at h
    subst h
    simp only [validatePurchaseDoc, Bool.and_eq_true, decide_eq_true_eq] at hv
    obtain ⟨⟨⟨⟨⟨⟨⟨⟨⟨⟨⟨-, h1⟩, h2⟩, h3⟩, h4⟩, h5⟩, h6⟩, h7⟩, h8⟩, -⟩, -⟩, -⟩ := hv
    exact ⟨rfl, rfl, rfl, h1, h3, h4, h5, h6, h7, h8⟩

/-- Witness for C8 (amended) at the committed purchase of `wPurchaseReq`. -/
theorem claim8_purchase_money_witness :
    wCreatedPurchase.totalAmount =
      wCreatedPurchase.subTotal + wCreatedPurchase.taxAmount +
        wCreatedPurchase.shippingCost - wCreatedPurchase.discountAmount ∧
    wCreatedPurchase.dueAmount = wCreatedPurchase.totalAmount - wCreatedPurchase.paidAmount ∧
    wCreatedPurchase.paymentStatus = jsOrStr wPurchaseReq.paymentStatus "pending" ∧
    0 ≤ wCreatedPurchase.subTotal ∧ 0 ≤ wCreatedPurchase.taxAmount ∧
    0 ≤ wCreatedPurchase.discountAmount ∧ 0 ≤ wCreatedPurchase.shippingCost ∧
    0 ≤ wCreatedPurchase.totalAmount ∧ 0 ≤ wCreatedPurchase.paidAmount ∧
    0 ≤ wCreatedPurchase.dueAmount :=
  claim8_purchase_money wDB wPurchaseReq wCreatedPurchase (by
    norm_num [createPurchase, purchaseLoop, mkPurchaseDoc, validatePurchaseDoc,
      generateInvoiceNumber', findSupplier, findProduct, jsFalsyId, jsFalsyNum,
      jsFalsyStr, jsOrNum, jsOrStr, paymentStatusEnum, paymentMethodEnum, statusEnum,
      wDB, wProduct, wPurchaseReq, wCreatedPurchase] <;> decide)

/-! ## Claim C3 — concurrent full-stock sales -/

/-- C3 as stated is false: the availability check of `createSale` reads the
product WITHOUT the session, against the latest committed state, not inside
the transactional scope.  Under the interleaving in which both requests
perform their validation read (each seeing the full stock of 5) before
either commits, BOTH transactions commit: two sales of 5 units each are
recorded against a product that held 5, and the final quantity is 0. -/
theorem claim3_counterexample :
    (wTwoRun [true, false, true, false]).t1.isCommitted = true ∧
    (wTwoRun [true, false, true, false]).t2.isCommitted = true ∧
    (wTwoRun [true, false, true, false]).db.sales.length = 2 ∧
    (wTwoRun [true, false, true, false]).db.products = [⟨1, true, 0⟩] := by
  refine ⟨?_, ?_, ?_, ?_⟩ <;>
    norm_num [wTwoRun, twoRun, txStep, TxPhase.isCommitted, singleReq, saleLoop, mkSaleDoc,
      validateSaleDoc, generateInvoiceNumber, findProduct, applyBuf, setQty, jsFalsyNum,
      jsFalsyStr, jsOrNum, jsOrStr, paymentStatusEnum, paymentMethodEnum, wFullItem, wDB,
      wProduct] <;> decide

/-- C3 (amended): the availability check reads the product outside the
transactional scope (latest committed state).  Concurrent outcomes depend
on the interleaving: if both validation reads happen before either commit,
both full-stock sales commit (stock is oversold to 0 with two recorded
sales); only when one request's read happens after the other's commit does
the second fail with the insufficient-stock error while exactly one sale is
recorded. -/
theorem claim3_concurrent_sales :
    ((wTwoRun [true, false, true, false]).t1.isCommitted = true ∧
      (wTwoRun [true, false, true, false]).t2.isCommitted = true ∧
      (wTwoRun [true, false, true, false]).db.sales.length = 2 ∧
      (wTwoRun [true, false, true, false]).db.products = [⟨1, true, 0⟩]) ∧
    ((wTwoRun [true, true, false, false]).t1.isCommitted = true ∧
      (wTwoRun [true, true, false, false]).t2 = .failed ⟨400, "Not enough stock"⟩ ∧
      (wTwoRun [true, true, false, false]).db.sales.length = 1 ∧
      (wTwoRun [true, true, false, false]).db.products = [⟨1, true, 0⟩]) := by
  refine ⟨⟨?_, ?_, ?_, ?_⟩, ⟨?_, ?_, ?_, ?_⟩⟩ <;>
    norm_num [wTwoRun, twoRun, txStep, TxPhase.isCommitted, singleReq, saleLoop, mkSaleDoc,
      validateSaleDoc, generateInvoiceNumber, findProduct, applyBuf, setQty, jsFalsyNum,
      jsFalsyStr, jsOrNum, jsOrStr, paymentStatusEnum, paymentMethodEnum, wFullItem, wDB,
      wProduct] <;> decide

/-! ## Claim C10 — cancellation silently skips missing products -/

/-- C10: when cancelling a non-cancelled sale, a line item whose product
document no longer exists is silently skipped: the cancellation still
succeeds, the sale is marked cancelled (both in the response and in the
collection), and no product document appears or changes for the missing
id. -/
theorem claim10_cancel_skips_missing (db : DB) (sid : Nat) (s : SaleDoc)
    (hfind : findSale db sid = some s)
    (hnc : s.paymentStatus ≠ "cancelled")
    (hok : ∀ it ∈ s.items, ∀ p, findProduct db it.product = some p →
      0 ≤ p.quantity + it.quantity) :
    (∃ d, (cancelSale db sid).2 = .ok d ∧ d.paymentStatus = "cancelled") ∧
    (∀ pid, findProduct db pid = none → findProduct (cancelSale db sid).1 pid = none) ∧
    findSale (cancelSale db sid).1 sid = some { s with paymentStatus := "cancelled" } := by
  obtain ⟨buf, hloop, hsub, hmem⟩ := cancelLoop_ok db s.items hok
  have heq := cancelSale_ok db sid s hfind hnc buf hloop
  have hsid : s.id = sid := by simpa using List.find?_some hfind
  refine ⟨⟨_, by rw [heq], rfl⟩, ?_, ?_⟩
  · intro pid hnone
    rw [heq]
    exact find?_applyBuf_none buf db.products pid hnone
  · rw [heq]
    show (setSale db.sales sid { s with paymentStatus := "cancelled" }).find?
        (fun x => x.id = sid) = _
    rw [findSale_setSale db.sales sid { s with paymentStatus := "cancelled" } hsid]
    rw [show db.sales.find? (fun x => x.id = sid) = some s from hfind]
    rfl

/-- Witness for C10 at `wMissDB`, whose only sale references the absent
product 42. -/
theorem claim10_cancel_skips_missing_witness :
    (∃ d, (cancelSale wMissDB 0).2 = .ok d ∧ d.paymentStatus = "cancelled") ∧
    (∀ pid, findProduct wMissDB pid = none → findProduct (cancelSale wMissDB 0).1 pid = none) ∧
    findSale (cancelSale wMissDB 0).1 0 =
      some { wMissSale with paymentStatus := "cancelled" } :=
  claim10_cancel_skips_missing wMissDB 0 wMissSale rfl (by decide) (by
    intro it hit p hp
    simp only [wMissSale, List.mem_singleton] at hit
    subst hit
    simp [findProduct, wMissDB, wProduct] at hp)

/-! ## Claim C7 — cancelling a sale -/

/-- C7 as stated is false for sales holding two line items for the SAME
product: every restore in the cancel loop reads the product outside the
session, so the buffered writes do not accumulate and only the LAST line
item's quantity is applied.  Cancelling a sale with items of 3 and 4 units
of product 1 (stock 0) leaves quantity 4, not 0 + 3 + 4 = 7. -/
theorem claim7_counterexample :
    (cancelSale wDupDB 0).2.map (fun d => d.paymentStatus) = .ok "cancelled" ∧
    (cancelSale wDupDB 0).1.products = [⟨1, true, 4⟩] ∧
    (cancelSale wDupDB 0).1.products ≠ [⟨1, true, 7⟩] := by
  refine ⟨?_, ?_, ?_⟩ <;>
    norm_num [cancelSale, cancelLoop, findSale, setSale, findProduct, applyBuf, setQty,
      wDupDB, wDupSale] <;> decide

/-- C7 (amended): cancelling an existing non-cancelled sale succeeds and
marks it cancelled; it increments each line item's product quantity by the
originally sold quantity PROVIDED the items reference pairwise-distinct
products (repeated items for one product do not accumulate — only the last
one is applied, because each restore reads the committed state); an
already-cancelled sale fails with the invalid-state error; and for the
round trip, creating a single-item sale of quantity q for product P and
then cancelling it restores P's document exactly (the create and the cancel
apply symmetric last-write-wins updates). -/
theorem claim7_cancel_sale :
    (∀ (db : DB) (sid : Nat) (s : SaleDoc),
      findSale db sid = some s → s.paymentStatus = "cancelled" →
      cancelSale db sid = (db, .error ⟨400, "Sale is already cancelled"⟩)) ∧
    (∀ (db : DB) (sid : Nat) (s : SaleDoc),
      findSale db sid = some s → s.paymentStatus ≠ "cancelled" →
      (s.items.map (fun it => it.product)).Nodup →
      (∀ it ∈ s.items, ∀ p, findProduct db it.product = some p →
        0 ≤ p.quantity + it.quantity) →
      (∃ d, (cancelSale db sid).2 = .ok d ∧ d.paymentStatus = "cancelled") ∧
      (∀ it ∈ s.items, ∀ p, findProduct db it.product = some p →
        findProduct (cancelSale db sid).1 it.product =
          some { p with quantity := p.quantity + it.quantity })) ∧
    (∀ (db : DB) (req : SaleReq) (pid : Nat) (q up : Rat) (doc : SaleDoc) (p : Product),
      req.items = [⟨some pid, some q, some up⟩] →
      SaleIdsBounded db →
      (createSale db req).2 = .ok doc →
      doc.paymentStatus ≠ "cancelled" →
      findProduct db pid = some p →
      0 ≤ p.quantity →
      findProduct (cancelSale (createSale db req).1 doc.id).1 pid = some p ∧
      (∃ d, (cancelSale (createSale db req).1 doc.id).2 = .ok d ∧
        d.paymentStatus = "cancelled")) := by
  refine ⟨?_, ?_, ?_⟩
  · intro db sid s hfind hc
    simp only [cancelSale, hfind]
    rw [if_pos hc]
  · intro db sid s hfind hnc hnd hok
    obtain ⟨buf, hloop, hsubl, hmem⟩ := cancelLoop_ok db s.items hok
    have heq := cancelSale_ok db sid s hfind hnc buf hloop
    refine ⟨⟨_, by rw [heq], rfl⟩, ?_⟩
    intro it hit p hp2
    rw [heq]
    have hbufnd : (buf.map Prod.fst).Nodup := hnd.sublist hsubl
    have hfa := find?_applyBuf_mem buf db.products it.product (p.quantity + it.quantity)
      hbufnd (hmem it hit p hp2)
    show (applyBuf db.products buf).find? (fun x => x.id = it.product) = _
    rw [hfa, show db.products.find? (fun x => x.id = it.product) = some p from hp2]
    rfl
  · intro db req pid q up doc p hitems hbound h hnc hp hp0
    rcases createSale_cases db req with ⟨e, he⟩ | ⟨sub, items, buf, hloop, hv, he⟩
    · rw [he] at h
      exact Except.noConfusion h
    · rw [he] at h
      simp only [Except.ok.injEq] at h
      subst h
      rw [hitems] at hloop
      simp only [saleLoop, hp, Option.getD_some] at hloop
      repeat' split at hloop
      any_goals exact Except.noConfusion hloop
      simp only [Except.ok.injEq, Prod.mk.injEq] at hloop
      obtain ⟨hsub, hitems2, hbuf⟩ := hloop
      subst hsub
      subst hitems2
      subst hbuf
      have hpid : p.id = pid := by simpa using List.find?_some hp
      -- the committed post-sale state
      rw [he]
      have hfind1 :
          findSale ({ db with
              products := applyBuf db.products [(pid, p.quantity - q)]
              sales := db.sales ++ [mkSaleDoc db req (q * up + 0) [⟨pid, q, up, q * up⟩]] })
            (mkSaleDoc db req (q * up + 0) [⟨pid, q, up, q * up⟩]).id =
            some (mkSaleDoc db req (q * up + 0) [⟨pid, q, up, q * up⟩]) :=
        find?_append_fresh db.sales _ hbound rfl
      have hp1 :
          findProduct ({ db with
              products := applyBuf db.products [(pid, p.quantity - q)]
              sales := db.sales ++ [mkSaleDoc db req (q * up + 0) [⟨pid, q, up, q * up⟩]] })
            pid = some { p with quantity := p.quantity - q } := by
        show (setQty db.products pid (p.quantity - q)).find? (fun x => x.id = pid) = _
        rw [find?_setQty, show db.products.find? (fun x => x.id = pid) = some p from hp]
        simp [hpid]
      have hguard : ¬ (({ p with quantity := p.quantity - q } : Product).quantity + q < 0) := by
        dsimp only
        rw [sub_add_cancel]
        exact not_lt.mpr hp0
      have hloop2 :
          cancelLoop ({ db with
              products := applyBuf db.products [(pid, p.quantity - q)]
              sales := db.sales ++ [mkSaleDoc db req (q * up + 0) [⟨pid, q, up, q * up⟩]] })
            (mkSaleDoc db req (q * up + 0) [⟨pid, q, up, q * up⟩]).items =
            .ok [(pid, (p.quantity - q) + q)] := by
        show cancelLoop _ [⟨pid, q, up, q * up⟩] = _
        simp only [cancelLoop, hp1, if_neg hguard]
      have hcan := cancelSale_ok _ _ _ hfind1 hnc _ hloop2
      constructor
      · rw [hcan]
        show (setQty (setQty db.products pid (p.quantity - q)) pid ((p.quantity - q) + q)).find?
            (fun x => x.id = pid) = _
        rw [find?_setQty, find?_setQty,
          show db.products.find? (fun x => x.id = pid) = some p from hp]
        simp only [Option.map_some', hpid, if_pos trivial, if_true]
        rw [sub_add_cancel, ← hpid]
      · exact ⟨_, by rw [hcan], rfl⟩

/-- Witness for C7 (amended): cancelling `wCancelledSale` fails with the
invalid-state error; cancelling `wPlainSale` marks it cancelled; creating
`wSaleReq` and cancelling the resulting sale restores product 1's document
exactly. -/
theorem claim7_cancel_sale_witness :
    cancelSale wCancelledDB 0 = (wCancelledDB, .error ⟨400, "Sale is already cancelled"⟩) ∧
    (∃ d, (cancelSale wPlainDB 0).2 = .ok d ∧ d.paymentStatus = "cancelled") ∧
    findProduct (cancelSale (createSale wDB wSaleReq).1 wCreatedSale.id).1 1 = some wProduct :=
  ⟨claim7_cancel_sale.1 wCancelledDB 0 wCancelledSale rfl rfl,
    (claim7_cancel_sale.2.1 wPlainDB 0 wPlainSale rfl (by decide) (by decide) (by
      intro it hit p hp
      simp only [wPlainSale, List.mem_singleton] at hit
      subst hit
      simp only [findProduct, wPlainDB, wProduct, List.find?] at hp
      norm_num at hp
      rw [← hp]
      norm_num)).1,
    (claim7_cancel_sale.2.2 wDB wSaleReq 1 2 10 wCreatedSale wProduct rfl
      (by intro s hs; simp [wDB] at hs)
      (by
        norm_num [createSale, saleLoop, mkSaleDoc, validateSaleDoc, generateInvoiceNumber,
          findProduct, applyBuf, setQty, jsFalsyNum, jsFalsyStr, jsOrNum, jsOrStr,
          paymentStatusEnum, paymentMethodEnum, wDB, wProduct, wSaleReq, wItem,
          wCreatedSale] <;> decide)
      (by decide) rfl (by norm_num [wProduct])).1⟩

/-! ## Claim C9 — purchase delivery -/

/-- C9 as stated is false: the stock increments and the purchase-status
write are NOT one atomic scope.  Delivering the pending purchase `wPurchase`
with an update that also carries an invalid `paymentStatus` commits the
stock increment (product 1 goes from 5 to 10) in the transaction, and only
then fails the separate `findByIdAndUpdate` — the purchase is left with
status `"pending"` while the increment stays visible. -/
theorem claim9_counterexample :
    (updatePurchase wDBP 0 wBadUpd 99).2 = .error ⟨500, "Purchase validation failed"⟩ ∧
    (updatePurchase wDBP 0 wBadUpd 99).1.products = [⟨1, true, 10⟩] ∧
    (updatePurchase wDBP 0 wBadUpd 99).1.purchases = [wPurchase] := by
  refine ⟨?_, ?_, ?_⟩ <;>
    norm_num [updatePurchase, findPurchase, needsRecalc, deliverLoop, recalcFields,
      validatePurchaseSet, applyPurchaseSet, setPurchase, findProduct, applyBuf, setQty,
      statusEnum, paymentStatusEnum, wDBP, wPurchase, wProduct, wBadUpd] <;> decide

/-- C9 (amended): from status `pending`/`processing`, the delivered
transition increments each line item's product quantity by the ordered
quantity (for items referencing distinct, existing products) inside one
transaction, and then writes status/`actualDeliveryDate` in a SEPARATE
non-transactional update: on success the purchase becomes `delivered` with
`actualDeliveryDate` set to now when the request carries none; when that
second write fails (e.g. an invalid `paymentStatus` in the same request),
the increments remain visible and the purchase document is unchanged.
Re-delivering an already-delivered purchase performs no stock change. -/
theorem claim9_deliver_purchase (db : DB) (pid : Nat) (now : Nat) (pu : PurchaseDoc)
    (hfind : findPurchase db pid = some pu) :
    ((pu.status = "pending" ∨ pu.status = "processing") →
      (∀ it ∈ pu.items, (findProduct db it.product).isSome = true) →
      (∀ it ∈ pu.items, ∀ p, findProduct db it.product = some p →
        0 ≤ p.quantity + it.quantity) →
      (pu.items.map (fun it => it.product)).Nodup →
      ((∃ d, (updatePurchase db pid
            ⟨some "delivered", none, none, none, none, none, none, none⟩ now).2 = .ok d ∧
          d.status = "delivered" ∧ d.actualDeliveryDate = some now) ∧
        (∀ it ∈ pu.items, ∀ p, findProduct db it.product = some p →
          findProduct (updatePurchase db pid
              ⟨some "delivered", none, none, none, none, none, none, none⟩ now).1
              it.product =
            some { p with quantity := p.quantity + it.quantity }) ∧
        (∀ s, paymentStatusEnum.contains s = false →
          (∃ e, (updatePurchase db pid
              ⟨some "delivered", some s, none, none, none, none, none, none⟩ now).2 =
            .error e) ∧
          (updatePurchase db pid
              ⟨some "delivered", some s, none, none, none, none, none, none⟩ now).1.purchases =
            db.purchases ∧
          (∀ it ∈ pu.items, ∀ p, findProduct db it.product = some p →
            findProduct (updatePurchase db pid
                ⟨some "delivered", some s, none, none, none, none, none, none⟩ now).1
                it.product =
              some { p with quantity := p.quantity + it.quantity })))) ∧
    (pu.status = "delivered" →
      ∀ u : PurchaseUpd, (updatePurchase db pid u now).1.products = db.products) := by
  constructor
  · intro hst hall hex hnd
    have hnc : ¬ pu.status = "cancelled" := by
      rcases hst with hst | hst <;> simp [hst]
    have hndel : pu.status ≠ "delivered" := by
      rcases hst with hst | hst <;> simp [hst]
    obtain ⟨buf, hbuf, hids, hmem⟩ := deliverLoop_ok db pu.items hall hex
    have hbufnd : (buf.map Prod.fst).Nodup := by
      rw [hids]
      exact hnd
    have heval : ∀ ps : Option String,
        updatePurchase db pid ⟨some "delivered", ps, none, none, none, none, none, none⟩ now =
          (if validatePurchaseSet ⟨some "delivered", ps, none, none, none, none, none,
              none, none, none, none, some now⟩ = true then
            ({ db with
                products := applyBuf db.products buf
                purchases := setPurchase db.purchases pid (applyPurchaseSet pu
                  ⟨some "delivered", ps, none, none, none, none, none, none, none, none,
                    none, some now⟩) },
              .ok (applyPurchaseSet pu
                ⟨some "delivered", ps, none, none, none, none, none, none, none, none,
                  none, some now⟩))
          else
            ({ db with products := applyBuf db.products buf },
              .error ⟨500, "Purchase validation failed"⟩)) := by
      intro ps
      simp only [updatePurchase, hfind]
      rw [if_neg hnc]
      simp only [decide_eq_true hndel, decide_True, Option.some.injEq, Bool.true_and,
        Bool.and_true, Bool.and_self, if_true, hbuf, Except.map_ok, needsRecalc,
        recalcFields, Option.isSome_none, Bool.or_self, Bool.or_false, Bool.false_or,
        Option.getD_none, if_false, String.reduceEq, reduceIte]
      split
      · rename_i e heq
        exact absurd heq (by simp [Except.map])
      · rename_i o heq
        simp only [Except.map, Except.ok.injEq] at heq
        subst heq
        rfl
    have hval : validatePurchaseSet ⟨some "delivered", none, none, none, none, none, none,
        none, none, none, none, some now⟩ = true := by
      simp [validatePurchaseSet, statusEnum]
    refine ⟨⟨applyPurchaseSet pu ⟨some "delivered", none, none, none, none, none, none,
        none, none, none, none, some now⟩, ?_, rfl, rfl⟩, ?_, ?_⟩
    · rw [heval none, if_pos hval]
    · intro it hit p hpp
      rw [heval none, if_pos hval]
      show (applyBuf db.products buf).find? (fun x => x.id = it.product) = _
      rw [find?_applyBuf_mem buf db.products it.product _ hbufnd (hmem it hit p hpp),
        show db.products.find? (fun x => x.id = it.product) = some p from hpp]
      rfl
    · intro s hcont
      have hvalf : ¬ (validatePurchaseSet ⟨some "delivered", some s, none, none, none,
          none, none, none, none, none, none, some now⟩ = true) := by
        simp only [validatePurchaseSet, hcont, Bool.and_false, Bool.false_and]
        exact Bool.false_ne_true
      refine ⟨⟨⟨500, "Purchase validation failed"⟩, ?_⟩, ?_, ?_⟩
      · rw [heval (some s), if_neg hvalf]
      · rw [heval (some s), if_neg hvalf]
      · intro it hit p hpp
        rw [heval (some s), if_neg hvalf]
        show (applyBuf db.products buf).find? (fun x => x.id = it.product) = _
        rw [find?_applyBuf_mem buf db.products it.product _ hbufnd (hmem it hit p hpp),
          show db.products.find? (fun x => x.id = it.product) = some p from hpp]
        rfl
  · intro hdel u
    have hnc : ¬ pu.status = "cancelled" := by simp [hdel]
    simp only [updatePurchase, hfind]
    rw [if_neg hnc]
    have hnn : ¬ (pu.status ≠ "delivered") := fun hne => hne hdel
    simp only [decide_eq_false hnn, Bool.and_false, Bool.false_eq_true, if_false]
    repeat' split
    all_goals rfl

/-- Witness for C9 (amended) at the pending purchase `wPurchase` over
`wDBP`. -/
theorem claim9_deliver_purchase_witness :
    (∃ d, (updatePurchase wDBP 0 wGoodUpd 99).2 = .ok d ∧ d.status = "delivered" ∧
      d.actualDeliveryDate = some 99) ∧
    (∃ e, (updatePurchase wDBP 0 wBadUpd 99).2 = .error e) ∧
    (updatePurchase wDBP 0 wBadUpd 99).1.purchases = wDBP.purchases :=
  have hex : ∀ it ∈ wPurchase.items, ∀ p, findProduct wDBP it.product = some p →
      0 ≤ p.quantity + it.quantity := by
    intro it hit p hp
    simp only [wPurchase, List.mem_singleton] at hit
    subst hit
    simp only [findProduct, wDBP, wProduct, List.find?] at hp
    norm_num at hp
    rw [← hp]
    norm_num
  have h := (claim9_deliver_purchase wDBP 0 99 wPurchase rfl).1 (Or.inl rfl)
    (by decide) hex (by decide)
  ⟨h.1, (h.2.2 "bogus" (by decide)).1, (h.2.2 "bogus" (by decide)).2.1⟩

end Inventory
